import Mathlib

/-!
Verification of the court-assignment bot (`bot-asignacion-juzgados`).

This file gives a shallow embedding of the parts of the repository the
claims are about, translated from the Python sources:

* `app/core/assign_courts.py`  — content hash and the per-claim assignment
  engine (`calculate_client_hash`, `process_pending_lawsuits_single_db`,
  `process_pending_lawsuits`);
* `app/bot_control.py`         — the quota governor
  (`increment_api_calls`, `can_run`, bot state);
* `app/utils/google_api.py`    — the geocode / distance-matrix wrappers
  (responses themselves are external, modelled as oracles in `Env`);
* `app/core/geocode_courts.py` — the coordinate synchronizer's per-court
  geocode steps (`calculate_court_hash`, insert/update branches);
* `app/tasks.py`               — the scheduled orchestration
  (`scheduled_sync_and_assign`) at the level of its control flow.

Modelling conventions, used throughout:
* Nullable SQL columns and Python `None` are `Option _`; Python truthiness
  on strings (`None` and `""` falsy) is `truthyS`, on floats (`None` and
  `0.0` falsy) is `truthyQ`.
* `sha256(...).hexdigest()` is modelled as an ideal collision-free digest,
  i.e. identified with its input string: equal input strings give equal
  digests (exactly as sha256), and distinct input strings give distinct
  digests (ideal-hash assumption).
* Floats (coordinates, kilometres) are `ℚ`.  The geodesic library call and
  the two Google endpoints are oracles carried by `Env`: the code treats
  their numeric output as opaque data.
* Python's `list.sort` / `sorted` are stable; `sortLe` below is a stable
  structural insertion sort, extensionally equal to them.
-/

/-- Python `x ?? ''` on an optional string: `f"{x or ''}"` renders `None`
and `""` both as `""`. -/
def orEmpty : Option String → String
  | none => ""
  | some s => s

/-- Python truthiness of an optional string: `None` and `""` are falsy. -/
def truthyS : Option String → Bool
  | none => false
  | some s => s ≠ ""

/-- Python truthiness of an optional number: `None` and `0.0` are falsy. -/
def truthyQ : Option ℚ → Bool
  | none => false
  | some x => x ≠ 0

/-- SQL `col = :param` equality: `NULL` on either side never matches. -/
def sqlEq : Option String → Option String → Bool
  | some a, some b => a == b
  | _, _ => false

/-- Python `f"{x}"` on an optional string: `None` renders as `"None"`
(used by `calculate_court_hash`, which does not null-coalesce). -/
def pyStr : Option String → String
  | none => "None"
  | some s => s

/-!
## Content hashes

`assign_courts.calculate_client_hash` builds
`f"{lawsuit_id}|{address or ''}|{neighborhood or ''}|{city or ''}|{department or ''}|{type_quantity or ''}"`
and returns its sha256 hex digest.  Per the ideal-hash convention the
digest is identified with the data string.
-/

def calculate_client_hash (lawsuit_id : Nat)
    (address neighborhood city department type_quantity : Option String) : String :=
  toString lawsuit_id ++ "|" ++ orEmpty address ++ "|" ++ orEmpty neighborhood ++ "|"
    ++ orEmpty city ++ "|" ++ orEmpty department ++ "|" ++ orEmpty type_quantity

/-- `geocode_courts.calculate_court_hash`: `f"{court_id}|{address}|{city}"`
(no null-coalescing: `None` renders as `"None"`). -/
def calculate_court_hash (court_id : Nat) (address city : Option String) : String :=
  toString court_id ++ "|" ++ pyStr address ++ "|" ++ pyStr city

/-!
## Quota governor (`app/bot_control.py`)

The persisted `bot_state.json` dictionary, restricted to the fields the
governor reads and writes.
-/

inductive BotStatus where
  | running
  | stopped
  | no_api_credits
  | error
deriving Repr, DecidableEq

structure BotState where
  status : BotStatus
  api_calls_today : Nat
  api_calls_month : Nat
  current_month : String
  api_quota_exceeded : Bool
  is_manual_stopped : Bool
deriving Repr, DecidableEq

/-- `MAX_API_CALLS_PER_DAY` / `MAX_API_CALLS_PER_MONTH` from `BotConfig`. -/
structure ApiLimits where
  daily : Nat
  monthly : Nat
deriving Repr, DecidableEq

/-- The two exceptions `increment_api_calls` can raise, with the limit
mentioned in the message. -/
inductive QuotaError where
  | monthly (limit : Nat)
  | daily (limit : Nat)
deriving Repr, DecidableEq

/-- The month-rollover block of `increment_api_calls` (lines 88-92):
reset the monthly counter, move the month marker, clear the flag. -/
def monthRollover (s : BotState) (current_month : String) : BotState :=
  { s with api_calls_month := 0, current_month := current_month, api_quota_exceeded := false }

/-- `BotController.increment_api_calls`, with `current_month` the value of
`datetime.now(COLOMBIA_TZ).strftime("%Y-%m")`.  Returns the state as
persisted by the final `save_state` together with the raised exception, if
any (the code saves the state before raising). -/
def increment_api_calls (lim : ApiLimits) (s : BotState) (current_month : String) :
    BotState × Option QuotaError :=
  let s1 := if s.current_month ≠ current_month then monthRollover s current_month else s
  let s2 := { s1 with api_calls_today := s1.api_calls_today + 1,
                      api_calls_month := s1.api_calls_month + 1 }
  if lim.monthly ≤ s2.api_calls_month then
    ({ s2 with api_quota_exceeded := true }, some (.monthly lim.monthly))
  else if lim.daily ≤ s2.api_calls_today then
    ({ s2 with api_quota_exceeded := true }, some (.daily lim.daily))
  else
    (s2, none)

/-- `BotController.can_run`. -/
def can_run (s : BotState) : Bool × String :=
  if s.is_manual_stopped then (false, "Bot detenido manualmente")
  else if s.api_quota_exceeded then (false, "Sin créditos de Google Maps API")
  else (true, "OK")

/-- Monthly count after rollover and increment: the value
`state["api_calls_month"]` holds when the limit checks run. -/
def monthCountAfter (s : BotState) (current_month : String) : Nat :=
  (if s.current_month ≠ current_month then 0 else s.api_calls_month) + 1

/-- Daily count after increment: the value `state["api_calls_today"]`
holds when the limit checks run. -/
def dayCountAfter (s : BotState) : Nat :=
  s.api_calls_today + 1

/-!
## Stable sort

Python's `list.sort(key=...)` / `sorted(key=...)` are stable.  `sortLe` is
a structural stable insertion sort: an element is inserted before the
first already-placed element it compares `le` to, so elements that compare
equal keep their original relative order — extensionally the same function
as Python's stable sort for a total preorder `le`.
-/

def insertLe {α : Type} (le : α → α → Bool) (x : α) : List α → List α
  | [] => [x]
  | y :: ys => if le x y then x :: y :: ys else y :: insertLe le x ys

def sortLe {α : Type} (le : α → α → Bool) : List α → List α
  | [] => []
  | x :: xs => insertLe le x (sortLe le xs)

/-!
## Assignment engine data model (`app/core/assign_courts.py`)
-/

/-- One row of the pending-lawsuits query (lines 55-81): a `Pendiente`
lawsuit joined to its client and the client's single active address. -/
structure Claim where
  lawsuit_id : Nat
  client_id : Nat
  type_quantity : Option String
  identification : String
  address : Option String
  neighborhood : Option String
  city : Option String
  department : Option String
deriving Repr, DecidableEq

/-- A `court_coordinates` row (the columns the engine reads). -/
structure CourtCoord where
  latitude : ℚ
  longitude : ℚ
  deleted : Bool
deriving Repr, DecidableEq

/-- A `data_courts` row together with its one-to-one `court_coordinates`
row, if any (`coord = none` models no coordinate row, dropped by the
INNER JOIN). `activo` is `status = 'Activo'`; `deleted` is
`deleted_at IS NOT NULL`. -/
structure Court where
  id : Nat
  name : String
  adress : Option String
  city : Option String
  type_cuantity : Option String
  activo : Bool
  deleted : Bool
  coord : Option CourtCoord
deriving Repr, DecidableEq

/-- A `lawsuit_court_assignments` row, keyed externally by `client_id`
(timestamps omitted). -/
structure Row where
  lawsuit_id : Nat
  client_identification : String
  client_address : String
  client_city : String
  court_id : Option Nat
  court_name : Option String
  distance_km : Option ℚ
  cuantia_type : Option String
  data_hash : String
deriving Repr, DecidableEq

/-- Return value of `geocode_address_with_logging`: `(lat, lng, found_city)`,
all `None` on failure; `found_city` is the `locality` else
`administrative_area_level_2` component, possibly absent. -/
structure GeoResult where
  lat : Option ℚ
  lng : Option ℚ
  found_city : Option String
deriving Repr, DecidableEq

/-- One destination tuple `(lat, lng, court_id, court_name)` passed to
`get_distance_matrix_with_logging`. -/
structure RouteDest where
  lat : ℚ
  lng : ℚ
  court_id : Nat
  court_name : String
deriving Repr, DecidableEq

/-- One element of the list `get_distance_matrix_with_logging` returns. -/
structure RouteEntry where
  court_id : Nat
  court_name : String
  distance_km : ℚ
  lat : ℚ
  lng : ℚ
deriving Repr, DecidableEq

/-- One entry of `courts_with_distance` (lines 494-513). -/
structure CandDist where
  court_id : Nat
  court_name : String
  lat : ℚ
  lng : ℚ
  straight_distance : ℚ
deriving Repr, DecidableEq

/-- The per-database environment the engine runs against: the court table
and the external collaborators (Google geocoding, Google distance matrix,
the geodesic library, the configured city-variant resolver and SQL string
normalization).  All are deterministic functions for the duration of a
run; their internals are outside the core. -/
structure Env where
  courts : List Court
  geocode : String → String → Option String → Option String → GeoResult
  route : ℚ → ℚ → List RouteDest → Option (List (Option ℚ))
  straight : ℚ → ℚ → ℚ → ℚ → ℚ
  searchVariants : String → List String
  sqlUpperTrim : String → String
  citiesMatch : String → String → Bool

/-- The four sentinel status strings (lines 158-163). -/
def sentinelNames : List String :=
  ["Sin dirección", "Error en geocodificación", "Dirección incorrecta o en otra ciudad",
    "No se encuentra juzgado en ciudad"]

/-- Line 158: `existing_court and existing_court not in [...]` — a stored
court value counts as a real assignment when it is truthy and none of the
four sentinels. -/
def isRealCourt : Option String → Bool
  | none => false
  | some s => s ≠ "" && !(sentinelNames.contains s)

/-- `UPPER(TRIM(dc.city)) = :cityN` over the search variants, `NULL` city
never matching (SQL three-valued logic). -/
def cityVariantHit (env : Env) (city : String) (courtCity : Option String) : Bool :=
  match courtCity with
  | none => false
  | some s => (env.searchVariants city).contains (env.sqlUpperTrim s)

/-- The candidate-courts query (lines 412-436), identical in its WHERE
clause to the counting query of the skip branch (lines 185-201):
active, non-deleted courts with a non-deleted coordinate row, of the
claim's exact tier, whose city matches any search variant. -/
def matchingCourts (env : Env) (city : String) (tier : Option String) :
    List (Court × CourtCoord) :=
  env.courts.filterMap fun dc =>
    match dc.coord with
    | none => none
    | some cc =>
        if dc.activo && !dc.deleted && !cc.deleted && sqlEq dc.type_cuantity tier
            && cityVariantHit env city dc.city then
          some (dc, cc)
        else none

/-- `f"{client_address}, {client_neighborhood or ''}, {client_city}"`
(line 287). -/
def fullAddress (c : Claim) : String :=
  c.address.getD "" ++ ", " ++ orEmpty c.neighborhood ++ ", " ++ c.city.getD ""

/-- The current hash of a claim (lines 135-142). -/
def clientHash (c : Claim) : String :=
  calculate_client_hash c.lawsuit_id c.address c.neighborhood c.city c.department c.type_quantity

/-- The geocoding call for a claim (lines 290-296):
`geocode_address_with_logging(client_address, client_city, client_department, client_neighborhood)`. -/
def clientGeo (env : Env) (c : Claim) : GeoResult :=
  env.geocode (c.address.getD "") (c.city.getD "") c.department c.neighborhood

/-- `courts_with_distance` (lines 494-513): straight-line (geodesic)
distance from the client to every candidate court. -/
def courtsWithDistance (env : Env) (clat clng : ℚ) (cands : List (Court × CourtCoord)) :
    List CandDist :=
  cands.map fun dc =>
    { court_id := dc.1.id, court_name := dc.1.name, lat := dc.2.latitude, lng := dc.2.longitude,
      straight_distance := env.straight clat clng dc.2.latitude dc.2.longitude }

def candidateList (env : Env) (c : Claim) : List CandDist :=
  courtsWithDistance env ((clientGeo env c).lat.getD 0) ((clientGeo env c).lng.getD 0)
    (matchingCourts env (c.city.getD "") c.type_quantity)

/-- Lines 515-516: sort ascending by straight-line distance (stable, as
Python's `list.sort`) and keep the top 5. -/
def topCourts (env : Env) (c : Claim) : List CandDist :=
  (sortLe (fun a b => a.straight_distance ≤ b.straight_distance) (candidateList env c)).take 5

/-- Lines 519-522: the destination tuples sent to the Distance Matrix API. -/
def destList (env : Env) (c : Claim) : List RouteDest :=
  (topCourts env c).map fun t =>
    { lat := t.lat, lng := t.lng, court_id := t.court_id, court_name := t.court_name }

/-- `get_distance_matrix_with_logging` (google_api.py lines 111-211) given
the provider response: `none` models a failed call (non-OK status, timeout
or exception) and yields `[]`; on OK, the per-destination elements (`none`
= element status not OK, `some km` = `distance.value / 1000`) are matched
to their destinations positionally, failures dropped, and the survivors
sorted ascending by `distance_km`.  An empty destination list returns `[]`
before any call. -/
def get_distance_matrix (resp : Option (List (Option ℚ))) (dests : List RouteDest) :
    List RouteEntry :=
  if dests.isEmpty then []
  else
    match resp with
    | none => []
    | some elems =>
        sortLe (fun a b => a.distance_km ≤ b.distance_km)
          ((dests.zip elems).filterMap fun de =>
            match de.2 with
            | some km =>
                some { court_id := de.1.court_id, court_name := de.1.court_name,
                       distance_km := km, lat := de.1.lat, lng := de.1.lng }
            | none => none)

/-- `real_distances` for a claim (lines 524-529). -/
def realDistances (env : Env) (c : Claim) : List RouteEntry :=
  get_distance_matrix
    (env.route ((clientGeo env c).lat.getD 0) ((clientGeo env c).lng.getD 0) (destList env c))
    (destList env c)

/-- Lines 531-541: if no routed distance came back, fall back to the
straight-line-closest candidate and its straight-line distance; otherwise
take the head of the routed list (minimal `distance_km`), locate that
candidate in `top_courts` by `court_id`, and keep the routed distance.
The two `none` results are unreachable in the engine (`top` nonempty and
routed ids drawn from `top`); in Python they would raise. -/
def selectCourt (top : List CandDist) (real : List RouteEntry) : Option (CandDist × ℚ) :=
  match real with
  | [] =>
      match top with
      | [] => none
      | t :: _ => some (t, t.straight_distance)
  | r :: _ =>
      match top.find? (fun c0 => c0.court_id == r.court_id) with
      | some c0 => some (c0, r.distance_km)
      | none => none

/-- Outcome classes of one loop iteration of
`process_pending_lawsuits_single_db`. -/
inductive WriteKind where
  | noAddress
  | geoError
  | wrongCity
  | noCourt
  | success
deriving Repr, DecidableEq

inductive Outcome where
  /-- Line 158: hash unchanged and a real court assigned — skipped. -/
  | skipUnchanged
  /-- Line 175: hash unchanged, stored sentinel `"No se encuentra juzgado
  en ciudad"`, and address or city missing — skipped. -/
  | skipSentinelNoData
  /-- Line 205: hash unchanged, stored no-court sentinel, and the fresh
  court count is still zero — skipped, 2 API calls saved. -/
  | skipStillNoCourts
  /-- One upsert of `row`, classified by `kind`. -/
  | write (kind : WriteKind) (row : Row)
  /-- `next(...)` found no matching candidate (StopIteration in Python);
  unreachable, see `evalClaim_ne_crash`. -/
  | crash
deriving Repr, DecidableEq

/-- The row written in the no-address branch (lines 239-280). -/
def noAddressRow (c : Claim) (h : String) : Row :=
  { lawsuit_id := c.lawsuit_id, client_identification := c.identification,
    client_address := "Sin dirección",
    client_city := if truthyS c.city then c.city.getD "" else "N/A",
    court_id := none, court_name := some "Sin dirección", distance_km := none,
    cuantia_type := none, data_hash := h }

/-- The row written in the geocoding-failure branch (lines 301-343). -/
def geoErrorRow (c : Claim) (h : String) : Row :=
  { lawsuit_id := c.lawsuit_id, client_identification := c.identification,
    client_address := fullAddress c, client_city := c.city.getD "",
    court_id := none, court_name := some "Error en geocodificación", distance_km := none,
    cuantia_type := none, data_hash := h }

/-- The row written in the wrong-city branch (lines 359-401). -/
def wrongCityRow (c : Claim) (h : String) (foundCity : String) : Row :=
  { lawsuit_id := c.lawsuit_id, client_identification := c.identification,
    client_address := "Dirección en " ++ foundCity ++ ", no en " ++ c.city.getD "",
    client_city := c.city.getD "",
    court_id := none, court_name := some "Dirección incorrecta o en otra ciudad",
    distance_km := none, cuantia_type := none, data_hash := h }

/-- The row written in the no-court-in-city branch (lines 441-485). -/
def noCourtRow (c : Claim) (h : String) : Row :=
  { lawsuit_id := c.lawsuit_id, client_identification := c.identification,
    client_address := fullAddress c, client_city := c.city.getD "",
    court_id := none, court_name := some "No se encuentra juzgado en ciudad",
    distance_km := none, cuantia_type := c.type_quantity, data_hash := h }

/-- The row written in the assignment branch (lines 547-595). -/
def successRow (c : Claim) (h : String) (win : CandDist) (dist : ℚ) : Row :=
  { lawsuit_id := c.lawsuit_id, client_identification := c.identification,
    client_address := fullAddress c, client_city := c.city.getD "",
    court_id := some win.court_id, court_name := some win.court_name,
    distance_km := some dist, cuantia_type := c.type_quantity, data_hash := h }

/-- Lines 234-599: the common evaluation path, entered once the
existing-row skip logic has fallen through. -/
def commonEval (env : Env) (c : Claim) (h : String) : Outcome :=
  if !truthyS c.address || !truthyS c.city then
    .write .noAddress (noAddressRow c h)
  else
    let g := clientGeo env c
    if !truthyQ g.lat || !truthyQ g.lng then
      .write .geoError (geoErrorRow c h)
    else if truthyS g.found_city
        && !env.citiesMatch (g.found_city.getD "") (c.city.getD "") then
      .write .wrongCity (wrongCityRow c h (g.found_city.getD ""))
    else if (matchingCourts env (c.city.getD "") c.type_quantity).isEmpty then
      .write .noCourt (noCourtRow c h)
    else
      match selectCourt (topCourts env c) (realDistances env c) with
      | some wd => .write .success (successRow c h wd.1 wd.2)
      | none => .crash

/-- One loop iteration (lines 120-599) given the stored assignment row for
the claim's client (`stored = none` when no row exists). -/
def evalClaim (env : Env) (stored : Option Row) (c : Claim) : Outcome :=
  let h := clientHash c
  match stored with
  | some row =>
      if row.data_hash == h && isRealCourt row.court_name then
        .skipUnchanged
      else if row.data_hash == h && row.court_name == some "No se encuentra juzgado en ciudad" then
        if !truthyS c.address || !truthyS c.city then
          .skipSentinelNoData
        else if (matchingCourts env (c.city.getD "") c.type_quantity).length == 0 then
          .skipStillNoCourts
        else
          commonEval env c h
      else
        commonEval env c h
  | none => commonEval env c h

/-- External API calls the iteration performs: `increment_api_calls` fires
once per geocode (google_api.py line 47) and once per distance-matrix call
with a nonempty destination list (line 141).  Skips and the no-address
branch dispatch nothing; the geocode-failure, wrong-city and no-court
branches have geocoded once; the assignment branch (and the unreachable
crash) geocoded and routed. -/
def apiCallsOf : Outcome → Nat
  | .skipUnchanged => 0
  | .skipSentinelNoData => 0
  | .skipStillNoCourts => 0
  | .write .noAddress _ => 0
  | .write .geoError _ => 1
  | .write .wrongCity _ => 1
  | .write .noCourt _ => 1
  | .write .success _ => 2
  | .crash => 2

/-- The per-database counters (lines 110-118). -/
structure Stats where
  success : Nat
  no_address : Nat
  no_court_in_city : Nat
  wrong_city : Nat
  error : Nat
  updated : Nat
  inserted : Nat
  skipped : Nat
  api_calls_saved : Nat
deriving Repr, DecidableEq

def initialStats : Stats := ⟨0, 0, 0, 0, 0, 0, 0, 0, 0⟩

/-- The `lawsuit_court_assignments` table as an association list from
`client_id` to the row. -/
abbrev Assigns := List (Nat × Row)

/-- `SELECT ... WHERE client_id = :client_id ... fetchone()` (lines 145-150). -/
def lookupA (A : Assigns) (k : Nat) : Option Row :=
  (A.find? fun p => p.1 == k).map Prod.snd

/-- `UPDATE lawsuit_court_assignments SET ... WHERE client_id = :client_id`. -/
def updateA (A : Assigns) (k : Nat) (r : Row) : Assigns :=
  A.map fun p => if p.1 == k then (k, r) else p

/-- Update counter bumps for a write: `updated_count += 1` when a row
existed, else `inserted_count += 1`, plus the branch's own counter. -/
def bumpWrite (s : Stats) (existing : Bool) (k : WriteKind) : Stats :=
  let s1 := if existing then { s with updated := s.updated + 1 }
            else { s with inserted := s.inserted + 1 }
  match k with
  | .noAddress => { s1 with no_address := s1.no_address + 1 }
  | .geoError => { s1 with error := s1.error + 1 }
  | .wrongCity => { s1 with wrong_city := s1.wrong_city + 1 }
  | .noCourt => { s1 with no_court_in_city := s1.no_court_in_city + 1 }
  | .success => { s1 with success := s1.success + 1 }

/-- One loop iteration acting on the assignments table and the counters. -/
def step (env : Env) (st : Assigns × Stats) (c : Claim) : Assigns × Stats :=
  let stored := lookupA st.1 c.client_id
  match evalClaim env stored c with
  | .skipUnchanged => (st.1, { st.2 with skipped := st.2.skipped + 1 })
  | .skipSentinelNoData => (st.1, { st.2 with skipped := st.2.skipped + 1 })
  | .skipStillNoCourts =>
      (st.1, { st.2 with skipped := st.2.skipped + 1,
                         api_calls_saved := st.2.api_calls_saved + 2 })
  | .write k row =>
      (if stored.isSome then updateA st.1 c.client_id row else st.1 ++ [(c.client_id, row)],
        bumpWrite st.2 stored.isSome k)
  | .crash => st

/-- `process_pending_lawsuits_single_db` over the fetched claims: the loop
of lines 120-599, starting from zeroed counters. -/
def runEngine (env : Env) (A : Assigns) (claims : List Claim) : Assigns × Stats :=
  claims.foldl (step env) (A, initialStats)

/-!
## Coordinate synchronizer (`app/core/geocode_courts.py`)

Only the per-court geocode branches are modelled (steps 3 and 4); the
bulk SQL reconciliation steps are not needed by the claims.
-/

/-- A `court_coordinates` row as written by the synchronizer. -/
structure CoordWrite where
  court_id : Nat
  latitude : ℚ
  longitude : ℚ
  geocoded_address : String
  data_hash : String
deriving Repr, DecidableEq

/-- Step 3 for one court with a changed address (lines 144-175): geocode
and, on `if lat and lng:` (Python truthiness: `None` and `0.0` falsy),
overwrite the coordinate row; otherwise leave it untouched (`none`). -/
def sync_regeocode_changed (g : GeoResult) (court_id : Nat)
    (new_address new_city : Option String) (new_hash : String) : Option CoordWrite :=
  if truthyQ g.lat && truthyQ g.lng then
    some { court_id := court_id, latitude := g.lat.getD 0, longitude := g.lng.getD 0,
           geocoded_address := pyStr new_address ++ ", " ++ pyStr new_city,
           data_hash := new_hash }
  else none

/-- Step 4 for one new court (lines 230-270): geocode and, on
`if lat and lng:`, insert a coordinate row; otherwise insert nothing. -/
def sync_geocode_new (g : GeoResult) (court_id : Nat)
    (address city : Option String) : Option CoordWrite :=
  if truthyQ g.lat && truthyQ g.lng then
    some { court_id := court_id, latitude := g.lat.getD 0, longitude := g.lng.getD 0,
           geocoded_address := pyStr address ++ ", " ++ pyStr city,
           data_hash := calculate_court_hash court_id address city }
  else none

/-!
## Orchestration (`process_pending_lawsuits`, `app/tasks.py`)
-/

def charPrefixOf : List Char → List Char → Bool
  | [], _ => true
  | _ :: _, [] => false
  | a :: as, b :: bs => a == b && charPrefixOf as bs

def charSubOf (pat : List Char) : List Char → Bool
  | [] => pat.isEmpty
  | b :: bs => charPrefixOf pat (b :: bs) || charSubOf pat bs

/-- Python `pat in s` on strings. -/
def containsSub (pat s : String) : Bool := charSubOf pat.data s.data

/-- Python `str.lower()`, character-wise ASCII lowercasing (the pattern
matched against it, `"quota"`, is ASCII; other characters pass through). -/
def pyLower (s : String) : String := ⟨s.data.map Char.toLower⟩

/-- `process_pending_lawsuits` (lines 640-699): iterate every configured
database in order, calling `process_pending_lawsuits_single_db` once per
database; an exception from one database (`.error msg`) is caught by the
per-database handler (lines 658-671), recorded in the results, and the
loop continues with the next database. -/
def process_pending_lawsuits_model (runDb : String → Except String Stats)
    (dbs : List String) : List (String × Except String Stats) :=
  dbs.map fun db => (db, runDb db)

inductive TaskResult where
  /-- `can_run` refused; the task returns "skipped" without touching the
  status (tasks.py lines 25-32). -/
  | notRun (reason : String)
  /-- The try-block ran to the end: final persisted status plus the
  per-database assignment results. -/
  | completed (final : BotStatus) (assignResults : List (String × Except String Stats))

/-- `scheduled_sync_and_assign` (tasks.py lines 14-128) at control-flow
level.  When `can_run` refuses, nothing runs.  Otherwise the status is set
to RUNNING, `sync_court_coordinates` and `process_pending_lawsuits` run —
both catch exceptions per database (geocode_courts.py lines 346-353,
assign_courts.py lines 658-671), as does the statistics collection
(tasks.py lines 87-97), so an exception raised while processing one
database (in particular a quota-exhaustion exception from
`increment_api_calls`) never reaches the task’s own handler — and the
task ends with `update_status(BotStatus.STOPPED)` (tasks.py line 99). -/
def scheduled_sync_and_assign_model (s : BotState)
    (runDb : String → Except String Stats) (dbs : List String) : TaskResult :=
  if (can_run s).1 = false then .notRun (can_run s).2
  else .completed .stopped (process_pending_lawsuits_model runDb dbs)

/-- The task-level exception handler (tasks.py lines 115-122): an error
message containing `"OVER_QUERY_LIMIT"`, or `"quota"` after lowercasing,
leads to `mark_no_credits` (NO_API_CREDITS); anything else to ERROR. -/
def task_error_status (error_msg : String) : BotStatus :=
  if containsSub "OVER_QUERY_LIMIT" error_msg || containsSub "quota" (pyLower error_msg) then
    .no_api_credits
  else .error

/-- The message of the monthly-limit exception raised by
`increment_api_calls` (bot_control.py line 106). -/
def monthlyLimitMsg (limit : Nat) : String :=
  "Límite mensual de API alcanzado (" ++ toString limit ++ " llamadas)"

/-- Verification classifier: the iterations that `continue` with
`skipped_count += 1` and no write (lines 158-219). -/
def skipLike : Outcome → Bool
  | .skipUnchanged => true
  | .skipSentinelNoData => true
  | .skipStillNoCourts => true
  | _ => false

/-- `client_id` column of the assignments table. -/
def keysOf (A : Assigns) : List Nat := A.map Prod.fst

/-- The counter bumps of one iteration as a function of its outcome
(verification apparatus; `step` projected to `Stats`). -/
def bumpOutcome (s : Stats) (stored : Bool) : Outcome → Stats
  | .skipUnchanged => { s with skipped := s.skipped + 1 }
  | .skipSentinelNoData => { s with skipped := s.skipped + 1 }
  | .skipStillNoCourts =>
      { s with skipped := s.skipped + 1, api_calls_saved := s.api_calls_saved + 2 }
  | .write k _ => bumpWrite s stored k
  | .crash => s

/-- The stored row for a client after its claim's iteration (verification
apparatus): a write leaves its row, a skip leaves the previous one. -/
def postRowFn : Outcome → Option Row → Option Row
  | .write _ row, _ => some row
  | _, st => st

/-- Verification classifier: a real assignment was written. -/
def isSuccessW : Outcome → Bool
  | .write .success _ => true
  | _ => false

/-- Verification classifier: the no-court sentinel was written. -/
def isNoCourtW : Outcome → Bool
  | .write .noCourt _ => true
  | _ => false

/-!
## Concrete instances used by witnesses and counterexamples
-/

/-- An environment whose oracles are never consulted on the paths under
study: empty court table, failing geocoder and router. -/
def envTrivial : Env :=
  { courts := [],
    geocode := fun _ _ _ _ => { lat := none, lng := none, found_city := none },
    route := fun _ _ _ => none,
    straight := fun _ _ _ _ => 0,
    searchVariants := fun s => [s],
    sqlUpperTrim := fun s => s,
    citiesMatch := fun _ _ => true }

/-- A geocoder that reports success at latitude 0.0 (a point on the
equator), longitude 5. -/
def envLatZero : Env :=
  { courts := [],
    geocode := fun _ _ _ _ => { lat := some 0, lng := some 5, found_city := some "B" },
    route := fun _ _ _ => none,
    straight := fun _ _ _ _ => 0,
    searchVariants := fun s => [s],
    sqlUpperTrim := fun s => s,
    citiesMatch := fun _ _ => true }

/-- Current claim of the separator-collision pair: the address is `NULL`,
the neighborhood is `"Z|"`.  Its data string
`"1||Z||W|D|T"` is byte-identical to that of the complete older tuple
`(1, "|Z", None, "W", "D", "T")`, so the two sha256 digests are equal. -/
def claimC7 : Claim :=
  { lawsuit_id := 1, client_id := 7, type_quantity := some "T", identification := "X",
    address := none, neighborhood := some "Z|", city := some "W", department := some "D" }

/-- Stored assignment for `claimC7`'s client: a real court, assigned when
the address was still `"|Z"`, with the digest of that older tuple. -/
def rowC7 : Row :=
  { lawsuit_id := 1, client_identification := "X", client_address := "|Z, , W",
    client_city := "W", court_id := some 77, court_name := some "Juzgado 1 Civil",
    distance_km := some 2, cuantia_type := some "T", data_hash := "1||Z||W|D|T" }

/-- Same collision pair for C4, for a different client. -/
def claimC4 : Claim :=
  { lawsuit_id := 1, client_id := 8, type_quantity := some "T", identification := "X",
    address := none, neighborhood := some "Z|", city := some "W", department := some "D" }

/-- Stored assignment for `claimC4`'s client: the no-court sentinel,
written when the address was still `"|Z"`, with the digest of that older
tuple. -/
def rowC4 : Row :=
  { lawsuit_id := 1, client_identification := "X", client_address := "|Z, , W",
    client_city := "W", court_id := none,
    court_name := some "No se encuentra juzgado en ciudad",
    distance_km := none, cuantia_type := some "T", data_hash := "1||Z||W|D|T" }

/-- A candidate court of city `"W"`, tier `"T"`, with the given id, name
and latitude (longitude 0). -/
def scenarioCourt (i : Nat) (nm : String) (lat : ℚ) : Court :=
  { id := i, name := nm, adress := some "A", city := some "W", type_cuantity := some "T",
    activo := true, deleted := false,
    coord := some { latitude := lat, longitude := 0, deleted := false } }

/-- Five candidate courts whose straight-line distances evaluate to
2, 3, 4, 10 and 12 km: the `straight` oracle returns the court latitude,
which is chosen as the intended distance. -/
def scenarioEnv (route : ℚ → ℚ → List RouteDest → Option (List (Option ℚ))) : Env :=
  { courts := [scenarioCourt 101 "J1" 2, scenarioCourt 102 "J2" 3, scenarioCourt 103 "J3" 4,
               scenarioCourt 104 "J4" 10, scenarioCourt 105 "J5" 12],
    geocode := fun _ _ _ _ => { lat := some 1, lng := some 1, found_city := none },
    route := route,
    straight := fun _ _ courtLat _ => courtLat,
    searchVariants := fun s => [s],
    sqlUpperTrim := fun s => s,
    citiesMatch := fun _ _ => true }

/-- Routing resolves only the 2nd and 4th destinations, at 5 km and 1 km. -/
def env5 : Env := scenarioEnv fun _ _ _ => some [none, some 5, none, some 1, none]

/-- Routing fails entirely. -/
def env6 : Env := scenarioEnv fun _ _ _ => none

def claim5 : Claim :=
  { lawsuit_id := 1, client_id := 1, type_quantity := some "T", identification := "X",
    address := some "Calle 1", neighborhood := none, city := some "W", department := none }

/-- The routed entry for court 104 (1 km away by road, 10 km straight). -/
def entry104 : RouteEntry :=
  { court_id := 104, court_name := "J4", distance_km := 1, lat := 10, lng := 0 }

/-- The routed entry for court 102 (5 km away by road, 3 km straight). -/
def entry102 : RouteEntry :=
  { court_id := 102, court_name := "J2", distance_km := 5, lat := 3, lng := 0 }

/-- The candidate entry a scenario court turns into. -/
def scenarioCand (i : Nat) (nm : String) (lat : ℚ) : CandDist :=
  { court_id := i, court_name := nm, lat := lat, lng := 0, straight_distance := lat }

/-- Claim used by the C4 witness: complete address, city `"W"`, tier
`"T"`; its data string is `"1|Calle 1||W||T"`. -/
def claimW4 : Claim :=
  { lawsuit_id := 1, client_id := 9, type_quantity := some "T", identification := "X",
    address := some "Calle 1", neighborhood := none, city := some "W", department := none }

/-- Stored no-court sentinel row for `claimW4`, hash unchanged: with
courts now available the skip branch must re-evaluate in full. -/
def rowW4 : Row :=
  { lawsuit_id := 1, client_identification := "X", client_address := "Calle 1, , W",
    client_city := "W", court_id := none,
    court_name := some "No se encuentra juzgado en ciudad", distance_km := none,
    cuantia_type := some "T", data_hash := "1|Calle 1||W||T" }

/-- Per-database runner for the C1 counterexample: the first database
aborts with the governor's monthly-limit exception, the second succeeds. -/
def c1RunDb : String → Except String Stats :=
  fun db => if db = "bd1" then .error (monthlyLimitMsg 10000) else .ok initialStats

/-- All-success runner used by the C1 witness. -/
def c1RunOk : String → Except String Stats := fun _ => .ok initialStats

/-- A pending claim with no address (C2): run 1 writes the
`"Sin dirección"` sentinel, run 2 re-processes it instead of skipping. -/
def claimC2 : Claim :=
  { lawsuit_id := 1, client_id := 5, type_quantity := some "T", identification := "X",
    address := none, neighborhood := none, city := some "W", department := none }

/-!
## Claim C8 — monthly limit is checked before the daily limit
-/

/-- C8: when one call attempt reaches both the daily and the monthly
ceiling, `increment_api_calls` fails with the monthly-limit error (never
the daily one) and persists `api_quota_exceeded = true`: the monthly check
at line 99 runs before the daily check at line 109. -/
theorem C8_quota_monthly_first (lim : ApiLimits) (s : BotState) (m : String)
    (hm : lim.monthly ≤ monthCountAfter s m) (_hd : lim.daily ≤ dayCountAfter s) :
    (increment_api_calls lim s m).2 = some (.monthly lim.monthly) ∧
    (increment_api_calls lim s m).1.api_quota_exceeded = true := by
  by_cases hroll : s.current_month ≠ m <;>
    simp [increment_api_calls, monthRollover, monthCountAfter, hroll] at hm ⊢ <;>
    simp [hm]

theorem C8_quota_monthly_first_witness :
    (ApiLimits.monthly ⟨1, 1⟩ ≤ monthCountAfter ⟨.running, 0, 0, "2026-01", false, false⟩ "2026-01") ∧
    (ApiLimits.daily ⟨1, 1⟩ ≤ dayCountAfter ⟨.running, 0, 0, "2026-01", false, false⟩) ∧
    ((increment_api_calls ⟨1, 1⟩ ⟨.running, 0, 0, "2026-01", false, false⟩ "2026-01").2 =
        some (.monthly 1) ∧
      (increment_api_calls ⟨1, 1⟩ ⟨.running, 0, 0, "2026-01", false, false⟩ "2026-01").1.api_quota_exceeded = true) :=
  ⟨by decide, by decide,
    C8_quota_monthly_first ⟨1, 1⟩ ⟨.running, 0, 0, "2026-01", false, false⟩ "2026-01"
      (by decide) (by decide)⟩

/-!
## Claim C9 — monthly rollover happens before the attempt is counted
-/

/-- C9: when the persisted month marker differs from the current month,
`increment_api_calls` behaves exactly as on the rolled-over state — whose
monthly counter is 0, whose `api_quota_exceeded` flag is cleared and whose
marker is the current month — and the attempt is then counted on the fresh
counter: the persisted monthly count is 1. -/
theorem C9_month_rollover (lim : ApiLimits) (s : BotState) (m : String)
    (h : s.current_month ≠ m) :
    increment_api_calls lim s m = increment_api_calls lim (monthRollover s m) m ∧
    (monthRollover s m).api_calls_month = 0 ∧
    (monthRollover s m).api_quota_exceeded = false ∧
    (monthRollover s m).current_month = m ∧
    (increment_api_calls lim s m).1.api_calls_month = 1 := by
  refine ⟨?_, rfl, rfl, rfl, ?_⟩
  · simp [increment_api_calls, monthRollover, h]
  · simp only [increment_api_calls, monthRollover, h, ne_eq, not_false_eq_true, if_true]
    split <;> try split
    all_goals rfl

theorem C9_month_rollover_witness :
    (BotState.current_month ⟨.running, 3, 7, "2025-12", true, false⟩ ≠ "2026-01") ∧
    (increment_api_calls ⟨100, 1000⟩ ⟨.running, 3, 7, "2025-12", true, false⟩ "2026-01" =
        increment_api_calls ⟨100, 1000⟩
          (monthRollover ⟨.running, 3, 7, "2025-12", true, false⟩ "2026-01") "2026-01" ∧
      (monthRollover ⟨.running, 3, 7, "2025-12", true, false⟩ "2026-01").api_calls_month = 0 ∧
      (monthRollover ⟨.running, 3, 7, "2025-12", true, false⟩ "2026-01").api_quota_exceeded = false ∧
      (monthRollover ⟨.running, 3, 7, "2025-12", true, false⟩ "2026-01").current_month = "2026-01" ∧
      (increment_api_calls ⟨100, 1000⟩ ⟨.running, 3, 7, "2025-12", true, false⟩ "2026-01").1.api_calls_month = 1) :=
  ⟨by decide,
    C9_month_rollover ⟨100, 1000⟩ ⟨.running, 3, 7, "2025-12", true, false⟩ "2026-01" (by decide)⟩

/-!
## Claim C3 — determinism and sensitivity of `calculate_client_hash`

The claim as frozen is refuted by the null-coalescing in the data string:
`address or ''` renders `None` and `""` identically, so changing the
address from `NULL` to the empty string changes the field but not the
digest (the sha256 inputs are byte-identical).
-/

/-- C3 counterexample: the tuples differ only in the address field
(`NULL` vs `""`), yet the hashes are equal. -/
theorem C3_hash_cex :
    calculate_client_hash 1 none (some "N") (some "C") (some "D") (some "T") =
      calculate_client_hash 1 (some "") (some "N") (some "C") (some "D") (some "T") ∧
    (none : Option String) ≠ some "" := by
  constructor
  · rfl
  · decide

lemma string_mid_cancel (p s x y : String) (h : p ++ x ++ s = p ++ y ++ s) : x = y := by
  have hdata : p.data ++ (x.data ++ s.data) = p.data ++ (y.data ++ s.data) := by
    have h1 := congrArg String.data h
    simp only [String.data_append, List.append_assoc] at h1
    exact h1
  have h2 : x.data ++ s.data = y.data ++ s.data := List.append_cancel_left hdata
  have hx : x.data = y.data := List.append_cancel_right h2
  cases x; cases y; exact congrArg String.mk hx

/-- C3 (amended): `calculate_client_hash` is deterministic — equal tuples
give equal digests — and changing exactly one of the address, city or tier
fields changes the digest, provided the two field values remain distinct
after the code's null-coalescing (`x or ''`), which identifies `NULL` with
`""`. -/
theorem C3_hash_deterministic_and_sensitive (i : Nat)
    (a n c d t a' c' t' : Option String)
    (ha : orEmpty a ≠ orEmpty a') (hc : orEmpty c ≠ orEmpty c')
    (ht : orEmpty t ≠ orEmpty t') :
    calculate_client_hash i a n c d t = calculate_client_hash i a n c d t ∧
    calculate_client_hash i a n c d t ≠ calculate_client_hash i a' n c d t ∧
    calculate_client_hash i a n c d t ≠ calculate_client_hash i a n c' d t ∧
    calculate_client_hash i a n c d t ≠ calculate_client_hash i a n c d t' := by
  refine ⟨rfl, fun h => ha ?_, fun h => hc ?_, fun h => ht ?_⟩
  · exact string_mid_cancel (toString i ++ "|")
      ("|" ++ orEmpty n ++ "|" ++ orEmpty c ++ "|" ++ orEmpty d ++ "|" ++ orEmpty t) _ _
      (by simpa [calculate_client_hash, String.append_assoc] using h)
  · exact string_mid_cancel (toString i ++ "|" ++ orEmpty a ++ "|" ++ orEmpty n ++ "|")
      ("|" ++ orEmpty d ++ "|" ++ orEmpty t) _ _
      (by simpa [calculate_client_hash, String.append_assoc] using h)
  · exact string_mid_cancel
      (toString i ++ "|" ++ orEmpty a ++ "|" ++ orEmpty n ++ "|" ++ orEmpty c ++ "|" ++ orEmpty d ++ "|")
      "" _ _
      (by simpa [calculate_client_hash, String.append_assoc] using h)

theorem C3_hash_deterministic_and_sensitive_witness :
    (orEmpty (some "Calle 1") ≠ orEmpty (some "Calle 2")) ∧
    (orEmpty (some "Bogotá") ≠ orEmpty (some "Cali")) ∧
    (orEmpty (some "Mínima") ≠ orEmpty (some "Mayor")) ∧
    (calculate_client_hash 9 (some "Calle 1") (some "B") (some "Bogotá") (some "D") (some "Mínima") =
        calculate_client_hash 9 (some "Calle 1") (some "B") (some "Bogotá") (some "D") (some "Mínima") ∧
      calculate_client_hash 9 (some "Calle 1") (some "B") (some "Bogotá") (some "D") (some "Mínima") ≠
        calculate_client_hash 9 (some "Calle 2") (some "B") (some "Bogotá") (some "D") (some "Mínima") ∧
      calculate_client_hash 9 (some "Calle 1") (some "B") (some "Bogotá") (some "D") (some "Mínima") ≠
        calculate_client_hash 9 (some "Calle 1") (some "B") (some "Cali") (some "D") (some "Mínima") ∧
      calculate_client_hash 9 (some "Calle 1") (some "B") (some "Bogotá") (some "D") (some "Mínima") ≠
        calculate_client_hash 9 (some "Calle 1") (some "B") (some "Bogotá") (some "D") (some "Mayor")) :=
  ⟨by decide, by decide, by decide,
    C3_hash_deterministic_and_sensitive 9 (some "Calle 1") (some "B") (some "Bogotá") (some "D")
      (some "Mínima") (some "Calle 2") (some "Cali") (some "Mayor")
      (by decide) (by decide) (by decide)⟩

/-!
## Sorting lemmas
-/

lemma mem_insertLe {α : Type} (le : α → α → Bool) (x a : α) (l : List α) :
    a ∈ insertLe le x l ↔ a = x ∨ a ∈ l := by
  induction l with
  | nil => simp [insertLe]
  | cons y ys ih =>
      by_cases h : le x y = true
      · rw [show insertLe le x (y :: ys) = x :: y :: ys by simp [insertLe, h]]
        simp [List.mem_cons]
      · rw [show insertLe le x (y :: ys) = y :: insertLe le x ys by simp [insertLe, h]]
        simp only [List.mem_cons, ih]
        tauto

lemma mem_sortLe {α : Type} (le : α → α → Bool) (a : α) (l : List α) :
    a ∈ sortLe le l ↔ a ∈ l := by
  induction l with
  | nil => simp [sortLe]
  | cons x xs ih => simp [sortLe, mem_insertLe, ih, List.mem_cons]

lemma length_insertLe {α : Type} (le : α → α → Bool) (x : α) (l : List α) :
    (insertLe le x l).length = l.length + 1 := by
  induction l with
  | nil => rfl
  | cons y ys ih => by_cases h : le x y = true <;> simp [insertLe, h, ih]

lemma length_sortLe {α : Type} (le : α → α → Bool) (l : List α) :
    (sortLe le l).length = l.length := by
  induction l with
  | nil => rfl
  | cons x xs ih => simp [sortLe, length_insertLe, ih]

lemma sortLe_eq_nil {α : Type} {le : α → α → Bool} {l : List α}
    (h : sortLe le l = []) : l = [] := by
  have hl := length_sortLe le l
  rw [h] at hl
  exact List.length_eq_zero.mp hl.symm

lemma pairwise_insertLe {α : Type} {le : α → α → Bool}
    (htrans : ∀ a b c, le a b = true → le b c = true → le a c = true)
    (htotal : ∀ a b, le a b = true ∨ le b a = true)
    (x : α) {l : List α} (hl : l.Pairwise fun a b => le a b = true) :
    (insertLe le x l).Pairwise fun a b => le a b = true := by
  induction l with
  | nil => simp [insertLe]
  | cons y ys ih =>
      obtain ⟨hy, hys⟩ := List.pairwise_cons.mp hl
      by_cases hxy : le x y = true
      · simp only [insertLe, hxy, if_true]
        refine List.pairwise_cons.mpr ⟨?_, hl⟩
        intro z hz
        rcases List.mem_cons.mp hz with rfl | hz
        · exact hxy
        · exact htrans x y z hxy (hy z hz)
      · simp only [insertLe, hxy, if_false]
        have hyx : le y x = true := (htotal x y).resolve_left hxy
        refine List.pairwise_cons.mpr ⟨?_, ih hys⟩
        intro z hz
        rcases (mem_insertLe le x z ys).mp hz with rfl | hz
        · exact hyx
        · exact hy z hz

lemma pairwise_sortLe {α : Type} {le : α → α → Bool}
    (htrans : ∀ a b c, le a b = true → le b c = true → le a c = true)
    (htotal : ∀ a b, le a b = true ∨ le b a = true)
    (l : List α) : (sortLe le l).Pairwise fun a b => le a b = true := by
  induction l with
  | nil => simp [sortLe]
  | cons x xs ih => exact pairwise_insertLe htrans htotal x ih

lemma pairwise_sortLe_ofKey {α : Type} (f : α → ℚ) (l : List α) :
    (sortLe (fun a b => f a ≤ f b) l).Pairwise fun a b => f a ≤ f b := by
  refine List.Pairwise.imp (fun h => of_decide_eq_true h) (pairwise_sortLe ?_ ?_ l)
  · intro a b c h1 h2
    exact decide_eq_true (le_trans (of_decide_eq_true h1) (of_decide_eq_true h2))
  · intro a b
    rcases le_total (f a) (f b) with h | h
    · exact Or.inl (decide_eq_true h)
    · exact Or.inr (decide_eq_true h)

lemma sortLe_head_min {α : Type} (f : α → ℚ) {l : List α} {t : α} {ts : List α}
    (h : sortLe (fun a b => f a ≤ f b) l = t :: ts) :
    ∀ y ∈ l, f t ≤ f y := by
  intro y hy
  have hy' : y ∈ t :: ts := by
    rw [← h, mem_sortLe]
    exact hy
  rcases List.mem_cons.mp hy' with rfl | hy'
  · exact le_refl _
  · have hp := pairwise_sortLe_ofKey f l
    rw [h] at hp
    exact (List.pairwise_cons.mp hp).1 y hy'

/-!
## Distance-matrix and selection lemmas
-/

lemma get_distance_matrix_sorted (resp : Option (List (Option ℚ))) (dests : List RouteDest) :
    (get_distance_matrix resp dests).Pairwise fun a b => a.distance_km ≤ b.distance_km := by
  unfold get_distance_matrix
  split
  · simp
  · split
    · simp
    · exact pairwise_sortLe_ofKey (fun e : RouteEntry => e.distance_km) _

lemma get_distance_matrix_source (resp : Option (List (Option ℚ))) (dests : List RouteDest)
    {e : RouteEntry} (he : e ∈ get_distance_matrix resp dests) :
    ∃ d ∈ dests, d.court_id = e.court_id := by
  unfold get_distance_matrix at he
  split at he
  · simp at he
  · split at he
    · simp at he
    · rw [mem_sortLe] at he
      obtain ⟨de, hde, hfe⟩ := List.mem_filterMap.mp he
      obtain ⟨d, oe⟩ := de
      cases oe with
      | none => simp at hfe
      | some km =>
          obtain ⟨hd, _⟩ := List.of_mem_zip hde
          injection hfe with h2
          refine ⟨d, hd, ?_⟩
          rw [← h2]

lemma realDistances_top_source (env : Env) (c : Claim) {e : RouteEntry}
    (he : e ∈ realDistances env c) :
    ∃ t ∈ topCourts env c, t.court_id = e.court_id := by
  obtain ⟨d, hd, hid⟩ := get_distance_matrix_source _ _ he
  obtain ⟨t, ht, hf⟩ := List.mem_map.mp hd
  refine ⟨t, ht, ?_⟩
  rw [← hid, ← hf]

lemma realDistances_head_min (env : Env) (c : Claim) {r : RouteEntry} {rest : List RouteEntry}
    (h : realDistances env c = r :: rest) :
    ∀ e ∈ realDistances env c, r.distance_km ≤ e.distance_km := by
  have hp := get_distance_matrix_sorted
    (env.route ((clientGeo env c).lat.getD 0) ((clientGeo env c).lng.getD 0) (destList env c))
    (destList env c)
  rw [show get_distance_matrix
      (env.route ((clientGeo env c).lat.getD 0) ((clientGeo env c).lng.getD 0) (destList env c))
      (destList env c) = realDistances env c from rfl, h] at hp
  intro e he
  rw [h] at he
  rcases List.mem_cons.mp he with rfl | he
  · exact le_refl _
  · exact (List.pairwise_cons.mp hp).1 e he

lemma ne_nil_isEmpty_false {α : Type} {l : List α} (h : l ≠ []) : l.isEmpty = false := by
  cases l with
  | nil => exact absurd rfl h
  | cons a l => rfl

lemma destList_ne_nil_of_real (env : Env) (c : Claim) {r : RouteEntry} {rest : List RouteEntry}
    (h : realDistances env c = r :: rest) : destList env c ≠ [] := by
  intro h0
  unfold realDistances at h
  rw [h0] at h
  simp [get_distance_matrix] at h

lemma candidateList_ne_nil_of_top (env : Env) (c : Claim)
    (h : topCourts env c ≠ []) : candidateList env c ≠ [] := by
  intro h0
  apply h
  unfold topCourts
  rw [h0]
  rfl

lemma matchingCourts_isEmpty_false (env : Env) (c : Claim)
    (h : candidateList env c ≠ []) :
    (matchingCourts env (c.city.getD "") c.type_quantity).isEmpty = false := by
  apply ne_nil_isEmpty_false
  intro h0
  apply h
  simp [candidateList, courtsWithDistance, h0]

/-- Once the fall-through conditions of lines 234-489 are settled — address
and city present, geocoding succeeded with nonzero coordinates, no
wrong-city detection, candidate list nonempty — the iteration reduces to
the two-phase selection of lines 493-599. -/
lemma evalClaim_none_toSelect (env : Env) (c : Claim)
    (haddr : truthyS c.address = true) (hcity : truthyS c.city = true)
    (hlat : truthyQ (clientGeo env c).lat = true)
    (hlng : truthyQ (clientGeo env c).lng = true)
    (hmatch : truthyS (clientGeo env c).found_city = true →
      env.citiesMatch ((clientGeo env c).found_city.getD "") (c.city.getD "") = true)
    (hmc : (matchingCourts env (c.city.getD "") c.type_quantity).isEmpty = false) :
    evalClaim env none c =
      (match selectCourt (topCourts env c) (realDistances env c) with
       | some wd => Outcome.write .success (successRow c (clientHash c) wd.1 wd.2)
       | none => Outcome.crash) := by
  have h1 : (!truthyS c.address || !truthyS c.city) = false := by rw [haddr, hcity]; rfl
  have h2 : (!truthyQ (clientGeo env c).lat || !truthyQ (clientGeo env c).lng) = false := by
    rw [hlat, hlng]; rfl
  have h3 : (truthyS (clientGeo env c).found_city
      && !env.citiesMatch ((clientGeo env c).found_city.getD "") (c.city.getD "")) = false := by
    by_cases hf : truthyS (clientGeo env c).found_city = true
    · rw [hf, hmatch hf]; rfl
    · rw [Bool.not_eq_true] at hf
      rw [hf]; rfl
  show commonEval env c (clientHash c) = _
  simp only [commonEval, h1, h2, h3, hmc, Bool.false_eq_true, if_false]

/-!
## Claim C5 — minimum routed distance wins among resolved candidates
-/

/-- C5: when the Distance Matrix call resolves at least one of the top-5
straight-line candidates (`realDistances env c = r :: rest`, `r` its
head), the engine assigns a candidate of the top-5 carrying the head's
court id, and persists the head's routed distance, which is minimal among
all resolved routed distances. -/
theorem C5_min_routed_wins (env : Env) (c : Claim)
    (haddr : truthyS c.address = true) (hcity : truthyS c.city = true)
    (hlat : truthyQ (clientGeo env c).lat = true)
    (hlng : truthyQ (clientGeo env c).lng = true)
    (hmatch : truthyS (clientGeo env c).found_city = true →
      env.citiesMatch ((clientGeo env c).found_city.getD "") (c.city.getD "") = true)
    (r : RouteEntry) (rest : List RouteEntry)
    (hreal : realDistances env c = r :: rest) :
    ∃ win : CandDist,
      evalClaim env none c = .write .success (successRow c (clientHash c) win r.distance_km) ∧
      win ∈ topCourts env c ∧ win.court_id = r.court_id ∧
      ∀ e ∈ realDistances env c, r.distance_km ≤ e.distance_km := by
  have hde : destList env c ≠ [] := destList_ne_nil_of_real env c hreal
  have htopne : topCourts env c ≠ [] := by
    intro h0
    apply hde
    unfold destList
    rw [h0]
    rfl
  have hmc := matchingCourts_isEmpty_false env c (candidateList_ne_nil_of_top env c htopne)
  have hrmem : r ∈ realDistances env c := by
    rw [hreal]
    exact List.mem_cons_self _ _
  obtain ⟨t, ht, hid⟩ := realDistances_top_source env c hrmem
  have hfind : (List.find? (fun c0 => c0.court_id == r.court_id) (topCourts env c)).isSome := by
    rw [List.find?_isSome]
    exact ⟨t, ht, by simp [hid]⟩
  obtain ⟨c0, hc0⟩ := Option.isSome_iff_exists.mp hfind
  refine ⟨c0, ?_, List.mem_of_find?_eq_some hc0, ?_, realDistances_head_min env c hreal⟩
  · rw [evalClaim_none_toSelect env c haddr hcity hlat hlng hmatch hmc, hreal]
    simp [selectCourt, hc0]
  · have hp := List.find?_some hc0
    simpa using hp

theorem C5_min_routed_wins_witness :
    (truthyS claim5.address = true) ∧ (truthyS claim5.city = true) ∧
    (truthyQ (clientGeo env5 claim5).lat = true) ∧
    (truthyQ (clientGeo env5 claim5).lng = true) ∧
    (realDistances env5 claim5 = entry104 :: [entry102]) ∧
    (∃ win : CandDist,
      evalClaim env5 none claim5 =
        .write .success (successRow claim5 (clientHash claim5) win entry104.distance_km) ∧
      win ∈ topCourts env5 claim5 ∧ win.court_id = entry104.court_id ∧
      ∀ e ∈ realDistances env5 claim5, entry104.distance_km ≤ e.distance_km) ∧
    entry104.court_id = 104 ∧ entry104.distance_km = 1 :=
  ⟨by decide, by decide, by decide, by decide, by decide,
    C5_min_routed_wins env5 claim5 (by decide) (by decide) (by decide) (by decide)
      (by decide) entry104 [entry102] (by decide),
    by decide, by decide⟩

/-!
## Claim C6 — straight-line fallback when routing resolves nothing
-/

/-- C6: when the routing call fails entirely or resolves none of the
top-5 destinations (`realDistances env c = []`), the engine assigns the
head of the straight-line-sorted candidate list — whose straight-line
distance is minimal among all candidates — and persists that straight-line
distance. -/
theorem C6_fallback_straight (env : Env) (c : Claim)
    (haddr : truthyS c.address = true) (hcity : truthyS c.city = true)
    (hlat : truthyQ (clientGeo env c).lat = true)
    (hlng : truthyQ (clientGeo env c).lng = true)
    (hmatch : truthyS (clientGeo env c).found_city = true →
      env.citiesMatch ((clientGeo env c).found_city.getD "") (c.city.getD "") = true)
    (t : CandDist) (ts : List CandDist)
    (htop : topCourts env c = t :: ts)
    (hreal : realDistances env c = []) :
    evalClaim env none c = .write .success (successRow c (clientHash c) t t.straight_distance) ∧
    ∀ y ∈ candidateList env c, t.straight_distance ≤ y.straight_distance := by
  have htopne : topCourts env c ≠ [] := by
    rw [htop]
    exact List.cons_ne_nil _ _
  have hmc := matchingCourts_isEmpty_false env c (candidateList_ne_nil_of_top env c htopne)
  obtain ⟨s, ss, hs⟩ : ∃ s ss,
      sortLe (fun a b => a.straight_distance ≤ b.straight_distance) (candidateList env c)
        = s :: ss := by
    cases hs : sortLe (fun a b => a.straight_distance ≤ b.straight_distance)
        (candidateList env c) with
    | nil =>
        exfalso
        apply htopne
        unfold topCourts
        rw [hs]
        rfl
    | cons s ss => exact ⟨s, ss, rfl⟩
  have hts : s = t := by
    have h5 : topCourts env c = s :: ss.take 4 := by
      unfold topCourts
      rw [hs]
      rfl
    rw [htop] at h5
    exact (List.cons.injEq _ _ _ _).mp h5.symm |>.1
  constructor
  · rw [evalClaim_none_toSelect env c haddr hcity hlat hlng hmatch hmc, hreal, htop]
    simp [selectCourt]
  · intro y hy
    have := sortLe_head_min (fun x : CandDist => x.straight_distance) hs y hy
    rw [hts] at this
    exact this

theorem C6_fallback_straight_witness :
    (truthyS claim5.address = true) ∧ (truthyS claim5.city = true) ∧
    (truthyQ (clientGeo env6 claim5).lat = true) ∧
    (truthyQ (clientGeo env6 claim5).lng = true) ∧
    (topCourts env6 claim5 = scenarioCand 101 "J1" 2 ::
      [scenarioCand 102 "J2" 3, scenarioCand 103 "J3" 4,
       scenarioCand 104 "J4" 10, scenarioCand 105 "J5" 12]) ∧
    (realDistances env6 claim5 = []) ∧
    (evalClaim env6 none claim5 =
        .write .success (successRow claim5 (clientHash claim5) (scenarioCand 101 "J1" 2)
          (scenarioCand 101 "J1" 2).straight_distance) ∧
      ∀ y ∈ candidateList env6 claim5,
        (scenarioCand 101 "J1" 2).straight_distance ≤ y.straight_distance) ∧
    (scenarioCand 101 "J1" 2).straight_distance = 2 :=
  ⟨by decide, by decide, by decide, by decide, by decide, by decide,
    C6_fallback_straight env6 claim5 (by decide) (by decide) (by decide) (by decide)
      (by decide) (scenarioCand 101 "J1" 2)
      [scenarioCand 102 "J2" 3, scenarioCand 103 "J3" 4,
       scenarioCand 104 "J4" 10, scenarioCand 105 "J5" 12]
      (by decide) (by decide),
    by decide⟩

/-!
## Claim C10 — 0.0 coordinates are indistinguishable from geocoding failure
-/

/-- C10: a geocoding response whose latitude or longitude is `0.0` — or
absent — makes every consumer take its failure branch: the synchronizer
performs neither the coordinate update of step 3 (`if lat and lng:`,
geocode_courts.py line 151) nor the insert of step 4 (line 249) for that
court, and the assignment engine (`if not client_lat or not client_lng:`,
assign_courts.py line 298) writes the sentinel
`"Error en geocodificación"` with null court and distance.  A successful
geocode to the equator or prime meridian is therefore indistinguishable
from a failed one. -/
theorem C10_zero_coordinate_is_failure (g : GeoResult)
    (hg : g.lat = some 0 ∨ g.lat = none ∨ g.lng = some 0 ∨ g.lng = none)
    (court_id : Nat) (addr city : Option String) (new_hash : String)
    (env : Env) (c : Claim)
    (haddr : truthyS c.address = true) (hcity : truthyS c.city = true)
    (hgeo : clientGeo env c = g) :
    sync_regeocode_changed g court_id addr city new_hash = none ∧
    sync_geocode_new g court_id addr city = none ∧
    evalClaim env none c = .write .geoError (geoErrorRow c (clientHash c)) ∧
    (geoErrorRow c (clientHash c)).court_id = none ∧
    (geoErrorRow c (clientHash c)).distance_km = none ∧
    (geoErrorRow c (clientHash c)).court_name = some "Error en geocodificación" := by
  have hfail : (truthyQ g.lat && truthyQ g.lng) = false := by
    rcases hg with h | h | h | h <;> simp [truthyQ, h]
  have h1 : (!truthyS c.address || !truthyS c.city) = false := by rw [haddr, hcity]; rfl
  have h2 : (!truthyQ (clientGeo env c).lat || !truthyQ (clientGeo env c).lng) = true := by
    rw [hgeo, ← Bool.not_and, hfail]
    rfl
  refine ⟨?_, ?_, ?_, rfl, rfl, rfl⟩
  · simp [sync_regeocode_changed, hfail]
  · simp [sync_geocode_new, hfail]
  · show commonEval env c (clientHash c) = _
    simp only [commonEval, h1, Bool.false_eq_true, if_false, h2, if_true]

theorem C10_zero_coordinate_is_failure_witness :
    (GeoResult.lat { lat := some 0, lng := some 5, found_city := some "B" } = some 0 ∨
      GeoResult.lat { lat := some 0, lng := some 5, found_city := some "B" } = none ∨
      GeoResult.lng { lat := some 0, lng := some 5, found_city := some "B" } = some 0 ∨
      GeoResult.lng { lat := some 0, lng := some 5, found_city := some "B" } = none) ∧
    (truthyS claim5.address = true) ∧ (truthyS claim5.city = true) ∧
    (clientGeo envLatZero claim5 = { lat := some 0, lng := some 5, found_city := some "B" }) ∧
    (sync_regeocode_changed { lat := some 0, lng := some 5, found_city := some "B" }
        33 (some "Calle 9") (some "W") "h" = none ∧
      sync_geocode_new { lat := some 0, lng := some 5, found_city := some "B" }
        33 (some "Calle 9") (some "W") = none ∧
      evalClaim envLatZero none claim5 =
        .write .geoError (geoErrorRow claim5 (clientHash claim5)) ∧
      (geoErrorRow claim5 (clientHash claim5)).court_id = none ∧
      (geoErrorRow claim5 (clientHash claim5)).distance_km = none ∧
      (geoErrorRow claim5 (clientHash claim5)).court_name = some "Error en geocodificación") :=
  ⟨Or.inl rfl, by decide, by decide, by decide,
    C10_zero_coordinate_is_failure { lat := some 0, lng := some 5, found_city := some "B" }
      (Or.inl rfl) 33 (some "Calle 9") (some "W") "h" envLatZero claim5
      (by decide) (by decide) (by decide)⟩

/-!
## Claim C7 — the no-address branch
-/

lemma step_eval (env : Env) (A : Assigns) (s : Stats) (c : Claim) :
    step env (A, s) c =
      match evalClaim env (lookupA A c.client_id) c with
      | .skipUnchanged => (A, { s with skipped := s.skipped + 1 })
      | .skipSentinelNoData => (A, { s with skipped := s.skipped + 1 })
      | .skipStillNoCourts =>
          (A, { s with skipped := s.skipped + 1, api_calls_saved := s.api_calls_saved + 2 })
      | .write k row =>
          (if (lookupA A c.client_id).isSome then updateA A c.client_id row
           else A ++ [(c.client_id, row)],
            bumpWrite s (lookupA A c.client_id).isSome k)
      | .crash => (A, s) := rfl

lemma step_write_stats (env : Env) (A : Assigns) (s : Stats) (c : Claim)
    (k : WriteKind) (row : Row)
    (h : evalClaim env (lookupA A c.client_id) c = .write k row) :
    (step env (A, s) c).2 = bumpWrite s (lookupA A c.client_id).isSome k := by
  rw [step_eval, h]

/-- C7 (amended): a pending claim whose address or city is missing gets
exactly one Assignment upsert writing the `"Sin dirección"` sentinel —
null court id, null distance, null tier, freshly computed hash — and
makes no external call, unless the stored row's hash equals the freshly
computed one and the stored court value is a real assignment or the
no-court sentinel, in which case the claim is skipped with no write at
all (that exception is reachable, see `C7_no_address_cex`). -/
theorem C7_no_address (env : Env) (stored : Option Row) (c : Claim)
    (haddr : truthyS c.address = false ∨ truthyS c.city = false)
    (hskip : ∀ r, stored = some r → r.data_hash = clientHash c →
      isRealCourt r.court_name = false ∧
      r.court_name ≠ some "No se encuentra juzgado en ciudad") :
    evalClaim env stored c = .write .noAddress (noAddressRow c (clientHash c)) ∧
    apiCallsOf (evalClaim env stored c) = 0 ∧
    (noAddressRow c (clientHash c)).court_name = some "Sin dirección" ∧
    (noAddressRow c (clientHash c)).court_id = none ∧
    (noAddressRow c (clientHash c)).distance_km = none ∧
    (noAddressRow c (clientHash c)).cuantia_type = none ∧
    (noAddressRow c (clientHash c)).data_hash = clientHash c ∧
    (∀ (A : Assigns) (s : Stats), lookupA A c.client_id = stored →
      (step env (A, s) c).2.inserted + (step env (A, s) c).2.updated
        = s.inserted + s.updated + 1) := by
  have hc1 : (!truthyS c.address || !truthyS c.city) = true := by
    rcases haddr with h | h <;> rw [h] <;> simp
  have heval : evalClaim env stored c = .write .noAddress (noAddressRow c (clientHash c)) := by
    have hcommon : commonEval env c (clientHash c)
        = .write .noAddress (noAddressRow c (clientHash c)) := by
      simp only [commonEval, hc1, if_true]
    cases stored with
    | none => exact hcommon
    | some r =>
        by_cases hh : r.data_hash = clientHash c
        · obtain ⟨hnr, hns⟩ := hskip r rfl hh
          simp only [evalClaim, hh, hnr, beq_self_eq_true, Bool.and_false, Bool.false_eq_true,
            if_false, Bool.true_and]
          rw [if_neg]
          · exact hcommon
          · simp [hns]
        · have hbeq : (r.data_hash == clientHash c) = false := by
            simp [hh]
          simp only [evalClaim, hbeq, Bool.false_and, Bool.false_eq_true, if_false]
          exact hcommon
  refine ⟨heval, by rw [heval]; rfl, rfl, rfl, rfl, rfl, rfl, ?_⟩
  intro A s hA
  have hw := step_write_stats env A s c .noAddress (noAddressRow c (clientHash c))
    (by rw [hA]; exact heval)
  rw [hw]
  cases hst : (lookupA A c.client_id).isSome <;> simp [bumpWrite, hst] <;> omega

/-- C7 counterexample: the claim as frozen fails on a reachable input.
The stored row holds a real court assigned to an older, complete address
tuple `(1, "|Z", None, "W", "D", "T")`; the current tuple has a `NULL`
address and neighborhood `"Z|"`.  Both tuples render to the byte-identical
data string `"1||Z||W|D|T"`, so their sha256 digests are equal, the line
158 skip fires, and the engine performs zero upserts and writes no
`"Sin dirección"` sentinel for a claim whose address is missing. -/
theorem C7_no_address_cex :
    truthyS claimC7.address = false ∧
    isRealCourt rowC7.court_name = true ∧
    rowC7.data_hash = calculate_client_hash 1 (some "|Z") none (some "W") (some "D") (some "T") ∧
    clientHash claimC7 = rowC7.data_hash ∧
    evalClaim envTrivial (some rowC7) claimC7 = .skipUnchanged ∧
    (step envTrivial ([(7, rowC7)], initialStats) claimC7).1 = [(7, rowC7)] ∧
    (step envTrivial ([(7, rowC7)], initialStats) claimC7).2.inserted = 0 ∧
    (step envTrivial ([(7, rowC7)], initialStats) claimC7).2.updated = 0 ∧
    (step envTrivial ([(7, rowC7)], initialStats) claimC7).2.skipped = 1 := by
  refine ⟨by decide, by decide, by decide, by decide, by decide, by decide, by decide,
    by decide, by decide⟩

theorem C7_no_address_witness :
    (truthyS (Claim.address ⟨2, 9, some "T", "Y", none, none, some "W", none⟩) = false ∨
      truthyS (Claim.city ⟨2, 9, some "T", "Y", none, none, some "W", none⟩) = false) ∧
    (evalClaim envTrivial none ⟨2, 9, some "T", "Y", none, none, some "W", none⟩ =
        .write .noAddress (noAddressRow ⟨2, 9, some "T", "Y", none, none, some "W", none⟩
          (clientHash ⟨2, 9, some "T", "Y", none, none, some "W", none⟩)) ∧
      apiCallsOf (evalClaim envTrivial none ⟨2, 9, some "T", "Y", none, none, some "W", none⟩) = 0) :=
  ⟨Or.inl (by decide),
    let h := C7_no_address envTrivial none ⟨2, 9, some "T", "Y", none, none, some "W", none⟩
      (Or.inl (by decide)) (fun r hr => by cases hr)
    ⟨h.1, h.2.1⟩⟩

/-!
## Claim C4 — the skip policy
-/

lemma skipLike_commonEval (env : Env) (c : Claim) (h : String) :
    skipLike (commonEval env c h) = false := by
  simp only [commonEval]
  split
  · rfl
  · split
    · rfl
    · split
      · rfl
      · split
        · rfl
        · split <;> rfl

/-- When the two line-152 guards fail — the hash changed, or the stored
court is neither a real assignment nor the no-court sentinel — the
iteration falls through to the common path. -/
lemma evalClaim_fallthrough (env : Env) (r : Row) (c : Claim)
    (h : r.data_hash = clientHash c →
      isRealCourt r.court_name = false ∧
      r.court_name ≠ some "No se encuentra juzgado en ciudad") :
    evalClaim env (some r) c = commonEval env c (clientHash c) := by
  by_cases hh : r.data_hash = clientHash c
  · obtain ⟨hnr, hns⟩ := h hh
    simp only [evalClaim, hh, hnr, beq_self_eq_true, Bool.and_false, Bool.false_eq_true,
      if_false, Bool.true_and]
    rw [if_neg]
    simp [hns]
  · have hbeq : (r.data_hash == clientHash c) = false := by simp [hh]
    simp only [evalClaim, hbeq, Bool.false_and, Bool.false_eq_true, if_false]

/-- Line 158: unchanged hash and a real stored court — skipped. -/
lemma evalClaim_skipUnchanged (env : Env) (r : Row) (c : Claim)
    (hh : r.data_hash = clientHash c) (hr : isRealCourt r.court_name = true) :
    evalClaim env (some r) c = .skipUnchanged := by
  simp only [evalClaim, hh, hr, beq_self_eq_true, Bool.true_and, if_true]

/-- Lines 173-220: unchanged hash with the stored no-court sentinel. -/
lemma evalClaim_sentinel_branch (env : Env) (r : Row) (c : Claim)
    (hh : r.data_hash = clientHash c)
    (hnr : isRealCourt r.court_name = false)
    (hsent : r.court_name = some "No se encuentra juzgado en ciudad") :
    evalClaim env (some r) c =
      (if !truthyS c.address || !truthyS c.city then .skipSentinelNoData
       else if (matchingCourts env (c.city.getD "") c.type_quantity).length == 0 then
         .skipStillNoCourts
       else commonEval env c (clientHash c)) := by
  simp only [evalClaim, hh, hnr, hsent, beq_self_eq_true, Bool.and_false, Bool.false_eq_true,
    if_false, Bool.true_and, if_true]
  rw [if_neg (by decide)]

lemma topCourts_ne_nil_of_matching (env : Env) (c : Claim)
    (h : matchingCourts env (c.city.getD "") c.type_quantity ≠ []) :
    topCourts env c ≠ [] := by
  intro h0
  apply h
  have h1 : sortLe (fun a b => a.straight_distance ≤ b.straight_distance)
      (candidateList env c) = [] := by
    cases hs : sortLe (fun a b => a.straight_distance ≤ b.straight_distance)
        (candidateList env c) with
    | nil => rfl
    | cons s ss =>
        unfold topCourts at h0
        rw [hs] at h0
        exact absurd h0 (by simp)
  have h2 : candidateList env c = [] := sortLe_eq_nil h1
  unfold candidateList courtsWithDistance at h2
  exact List.map_eq_nil_iff.mp h2

lemma selectCourt_isSome_eval (env : Env) (c : Claim) (htop : topCourts env c ≠ []) :
    ∃ wd, selectCourt (topCourts env c) (realDistances env c) = some wd := by
  cases hreal : realDistances env c with
  | nil =>
      cases htc : topCourts env c with
      | nil => exact absurd htc htop
      | cons t ts => exact ⟨(t, t.straight_distance), rfl⟩
  | cons r rest =>
      have hrmem : r ∈ realDistances env c := by
        rw [hreal]
        exact List.mem_cons_self _ _
      obtain ⟨t, ht, hid⟩ := realDistances_top_source env c hrmem
      have hfind : (List.find? (fun c0 => c0.court_id == r.court_id) (topCourts env c)).isSome := by
        rw [List.find?_isSome]
        exact ⟨t, ht, by simp [hid]⟩
      obtain ⟨c0, hc0⟩ := Option.isSome_iff_exists.mp hfind
      exact ⟨(c0, r.distance_km), by simp [selectCourt, hc0]⟩

/-- C4 (amended): a pending claim is skipped if and only if its stored
hash equals the freshly computed hash and either (a) the stored court is a
real, non-sentinel assignment, or (b) the stored court is the sentinel
`"No se encuentra juzgado en ciudad"` and the claim's address or city is
missing **or** the fresh count of matching active courts is zero (the
missing-address sub-case, line 175, skips without counting; it is
reachable only through a data-string collision, see `C4_skip_policy_cex`).
When the stored sentinel is the no-court one, data unchanged and complete,
and the count is non-zero, the claim is re-evaluated in full, and a
successful geocode plus city match yields a real assignment. -/
theorem C4_skip_policy (env : Env) (stored : Option Row) (c : Claim) :
    (skipLike (evalClaim env stored c) = true ↔
      ∃ r, stored = some r ∧ r.data_hash = clientHash c ∧
        (isRealCourt r.court_name = true ∨
          (r.court_name = some "No se encuentra juzgado en ciudad" ∧
            (truthyS c.address = false ∨ truthyS c.city = false ∨
              (matchingCourts env (c.city.getD "") c.type_quantity).length = 0)))) ∧
    (∀ r, stored = some r → r.data_hash = clientHash c →
      r.court_name = some "No se encuentra juzgado en ciudad" →
      truthyS c.address = true → truthyS c.city = true →
      (matchingCourts env (c.city.getD "") c.type_quantity).length ≠ 0 →
      evalClaim env stored c = commonEval env c (clientHash c) ∧
      (truthyQ (clientGeo env c).lat = true → truthyQ (clientGeo env c).lng = true →
        (truthyS (clientGeo env c).found_city = true →
          env.citiesMatch ((clientGeo env c).found_city.getD "") (c.city.getD "") = true) →
        ∃ win dist, evalClaim env stored c =
          .write .success (successRow c (clientHash c) win dist))) := by
  constructor
  · constructor
    · intro hskip
      cases hst : stored with
      | none =>
          rw [hst] at hskip
          have h0 : skipLike (commonEval env c (clientHash c)) = true := hskip
          rw [skipLike_commonEval] at h0
          cases h0
      | some r =>
          rw [hst] at hskip
          by_cases hh : r.data_hash = clientHash c
          case neg =>
            rw [evalClaim_fallthrough env r c (fun h => absurd h hh),
              skipLike_commonEval] at hskip
            cases hskip
          case pos =>
          by_cases hreal : isRealCourt r.court_name = true
          · exact ⟨r, rfl, hh, Or.inl hreal⟩
          · have hnr : isRealCourt r.court_name = false := by
              rw [Bool.not_eq_true] at hreal
              exact hreal
            by_cases hsent : r.court_name = some "No se encuentra juzgado en ciudad"
            case neg =>
              rw [evalClaim_fallthrough env r c (fun _ => ⟨hnr, hsent⟩),
                skipLike_commonEval] at hskip
              cases hskip
            case pos =>
            refine ⟨r, rfl, hh, Or.inr ⟨hsent, ?_⟩⟩
            rw [evalClaim_sentinel_branch env r c hh hnr hsent] at hskip
            by_cases ha : (!truthyS c.address || !truthyS c.city) = true
            · have ha' : truthyS c.address = false ∨ truthyS c.city = false := by
                simpa using ha
              rcases ha' with h | h
              · exact Or.inl h
              · exact Or.inr (Or.inl h)
            · rw [if_neg ha] at hskip
              by_cases hcnt :
                  ((matchingCourts env (c.city.getD "") c.type_quantity).length == 0) = true
              · refine Or.inr (Or.inr ?_)
                simpa using hcnt
              · rw [if_neg hcnt, skipLike_commonEval] at hskip
                cases hskip
    · rintro ⟨r, rfl, hh, hor⟩
      rcases hor with hreal | ⟨hsent, hdis⟩
      · rw [evalClaim_skipUnchanged env r c hh hreal]
        rfl
      · have hnr : isRealCourt r.court_name = false := by
          rw [hsent]
          rfl
        rw [evalClaim_sentinel_branch env r c hh hnr hsent]
        by_cases ha : (!truthyS c.address || !truthyS c.city) = true
        · rw [if_pos ha]
          rfl
        · rw [if_neg ha]
          have hcount : (matchingCourts env (c.city.getD "") c.type_quantity).length = 0 := by
            rcases hdis with h | h | h
            · exact absurd (by rw [h]; simp) ha
            · exact absurd (by rw [h]; simp) ha
            · exact h
          rw [if_pos (by simp [hcount])]
          rfl
  · intro r hst hh hsent haddr hcity hcount
    have hnr : isRealCourt r.court_name = false := by
      rw [hsent]
      rfl
    subst hst
    have h1 : evalClaim env (some r) c = commonEval env c (clientHash c) := by
      rw [evalClaim_sentinel_branch env r c hh hnr hsent]
      rw [if_neg (by rw [haddr, hcity]; simp), if_neg (by simp only [beq_iff_eq]; exact hcount)]
    refine ⟨h1, fun hlat hlng hmatch => ?_⟩
    have hmne : matchingCourts env (c.city.getD "") c.type_quantity ≠ [] := by
      intro h0
      apply hcount
      rw [h0]
      rfl
    have hmc : (matchingCourts env (c.city.getD "") c.type_quantity).isEmpty = false :=
      ne_nil_isEmpty_false hmne
    obtain ⟨wd, hwd⟩ := selectCourt_isSome_eval env c (topCourts_ne_nil_of_matching env c hmne)
    refine ⟨wd.1, wd.2, ?_⟩
    rw [h1, show commonEval env c (clientHash c) = evalClaim env none c from rfl,
      evalClaim_none_toSelect env c haddr hcity hlat hlng hmatch hmc, hwd]

/-- C4 counterexample: the frozen iff fails on a reachable input.  The
stored row carries the no-court sentinel with the digest of the older,
complete tuple `(1, "|Z", None, "W", "D", "T")`; the current tuple with a
`NULL` address and neighborhood `"Z|"` renders to the byte-identical data
string, so the hashes match; the court count for city `"W"` / tier `"T"`
is now 5 (non-zero) — by the claim the engine must re-evaluate in full —
yet line 175 skips without ever counting, because the address is missing. -/
theorem C4_skip_policy_cex :
    skipLike (evalClaim env6 (some rowC4) claimC4) = true ∧
    evalClaim env6 (some rowC4) claimC4 = .skipSentinelNoData ∧
    isRealCourt rowC4.court_name = false ∧
    (matchingCourts env6 (claimC4.city.getD "") claimC4.type_quantity).length = 5 ∧
    rowC4.data_hash = calculate_client_hash 1 (some "|Z") none (some "W") (some "D") (some "T") ∧
    rowC4.data_hash = clientHash claimC4 ∧
    truthyS claimC4.address = false := by
  refine ⟨by decide, by decide, by decide, by decide, by decide, by decide, by decide⟩

theorem C4_skip_policy_witness :
    evalClaim env6 (some rowW4) claimW4 = commonEval env6 claimW4 (clientHash claimW4) ∧
    ∃ win dist, evalClaim env6 (some rowW4) claimW4 =
      .write .success (successRow claimW4 (clientHash claimW4) win dist) :=
  let h := (C4_skip_policy env6 (some rowW4) claimW4).2 rowW4 rfl (by decide) (by decide)
    (by decide) (by decide) (by decide)
  ⟨h.1, h.2 (by decide) (by decide) (by decide)⟩

/-!
## Claim C1 — what quota exhaustion actually does to a run
-/

lemma increment_monthly_hit (lim : ApiLimits) (s : BotState) (m : String)
    (hm : lim.monthly ≤ monthCountAfter s m) :
    (increment_api_calls lim s m).2 = some (.monthly lim.monthly) ∧
    (increment_api_calls lim s m).1.api_quota_exceeded = true := by
  by_cases hroll : s.current_month ≠ m <;>
    simp [increment_api_calls, monthRollover, monthCountAfter, hroll] at hm ⊢ <;>
    simp [hm]

lemma increment_daily_hit (lim : ApiLimits) (s : BotState) (m : String)
    (hm : ¬ lim.monthly ≤ monthCountAfter s m) (hd : lim.daily ≤ dayCountAfter s) :
    (increment_api_calls lim s m).2 = some (.daily lim.daily) ∧
    (increment_api_calls lim s m).1.api_quota_exceeded = true := by
  by_cases hroll : s.current_month ≠ m <;>
    simp [increment_api_calls, monthRollover, monthCountAfter, dayCountAfter, hroll]
      at hm hd ⊢ <;>
    simp [Nat.not_le.mpr hm, hd]

lemma increment_manual_preserved (lim : ApiLimits) (s : BotState) (m : String) :
    (increment_api_calls lim s m).1.is_manual_stopped = s.is_manual_stopped := by
  by_cases hroll : s.current_month ≠ m <;>
    simp only [increment_api_calls, monthRollover, hroll, if_true, if_false, ite_true,
      ite_false, ne_eq, not_not, not_false_eq_true] <;>
    split <;> (try split) <;> rfl

lemma can_run_quota (s : BotState) (hms : s.is_manual_stopped = false)
    (hq : s.api_quota_exceeded = true) :
    can_run s = (false, "Sin créditos de Google Maps API") := by
  simp [can_run, hms, hq]

/-- C1 (amended): when the Governor's pre-call check trips the monthly
or the daily quota limit, the call fails with the corresponding exception
(the monthly one when the monthly ceiling is reached, the daily one
otherwise) — aborting the current database's processing, since
`process_pending_lawsuits_single_db` has no per-claim handler — and
`api_quota_exceeded = true` is persisted, so the next run is refused by
`can_run` ("Sin créditos de Google Maps API"): in that sense the failure
is not retried.  Within the current run, however, the orchestrator's
per-database handler catches the exception: every configured database is
still iterated, each exactly once with its own result, and the scheduled
task completes with final status STOPPED — not NO_API_CREDITS (see
`C1_quota_terminates_run_cex`). -/
theorem C1_quota_behavior (lim : ApiLimits) (s : BotState) (m : String)
    (hq : lim.monthly ≤ monthCountAfter s m ∨ lim.daily ≤ dayCountAfter s)
    (hms : s.is_manual_stopped = false)
    (s0 : BotState) (h0 : s0.is_manual_stopped = false) (hq0 : s0.api_quota_exceeded = false)
    (runDb : String → Except String Stats) (dbs : List String) :
    (increment_api_calls lim s m).2 =
      some (if lim.monthly ≤ monthCountAfter s m then .monthly lim.monthly
        else .daily lim.daily) ∧
    (increment_api_calls lim s m).1.api_quota_exceeded = true ∧
    can_run (increment_api_calls lim s m).1 = (false, "Sin créditos de Google Maps API") ∧
    (process_pending_lawsuits_model runDb dbs).length = dbs.length ∧
    (∀ i : Nat, (process_pending_lawsuits_model runDb dbs).get? i =
      (dbs.get? i).map fun db => (db, runDb db)) ∧
    scheduled_sync_and_assign_model s0 runDb dbs =
      .completed .stopped (process_pending_lawsuits_model runDb dbs) := by
  have hkey : (increment_api_calls lim s m).2 =
      some (if lim.monthly ≤ monthCountAfter s m then QuotaError.monthly lim.monthly
        else QuotaError.daily lim.daily) ∧
      (increment_api_calls lim s m).1.api_quota_exceeded = true := by
    by_cases hm : lim.monthly ≤ monthCountAfter s m
    · obtain ⟨h1, h2⟩ := increment_monthly_hit lim s m hm
      rw [if_pos hm]
      exact ⟨h1, h2⟩
    · obtain ⟨h1, h2⟩ := increment_daily_hit lim s m hm (hq.resolve_left hm)
      rw [if_neg hm]
      exact ⟨h1, h2⟩
  obtain ⟨h1, h2⟩ := hkey
  refine ⟨h1, h2, ?_, ?_, ?_, ?_⟩
  · exact can_run_quota _ (by rw [increment_manual_preserved]; exact hms) h2
  · simp [process_pending_lawsuits_model]
  · intro i
    simp [process_pending_lawsuits_model]
  · have hcr : (can_run s0).1 = true := by simp [can_run, h0, hq0]
    simp [scheduled_sync_and_assign_model, hcr]

theorem C1_quota_behavior_witness :
    ((ApiLimits.monthly ⟨5, 10⟩ ≤
        monthCountAfter ⟨.running, 3, 9, "2026-01", false, false⟩ "2026-01" ∨
      ApiLimits.daily ⟨5, 10⟩ ≤ dayCountAfter ⟨.running, 3, 9, "2026-01", false, false⟩) ∧
     ((increment_api_calls ⟨5, 10⟩ ⟨.running, 3, 9, "2026-01", false, false⟩ "2026-01").2 =
        some (.monthly 10) ∧
      (increment_api_calls ⟨5, 10⟩ ⟨.running, 3, 9, "2026-01", false, false⟩
          "2026-01").1.api_quota_exceeded = true ∧
      can_run (increment_api_calls ⟨5, 10⟩ ⟨.running, 3, 9, "2026-01", false, false⟩
          "2026-01").1 = (false, "Sin créditos de Google Maps API") ∧
      (process_pending_lawsuits_model c1RunOk ["a", "b"]).length = ["a", "b"].length ∧
      (∀ i : Nat, (process_pending_lawsuits_model c1RunOk ["a", "b"]).get? i =
        (["a", "b"].get? i).map fun db => (db, c1RunOk db)) ∧
      scheduled_sync_and_assign_model ⟨.stopped, 0, 0, "2026-01", false, false⟩
          c1RunOk ["a", "b"] =
        .completed .stopped (process_pending_lawsuits_model c1RunOk ["a", "b"]))) ∧
    ((ApiLimits.monthly ⟨5, 100⟩ ≤
        monthCountAfter ⟨.running, 4, 9, "2026-01", false, false⟩ "2026-01" ∨
      ApiLimits.daily ⟨5, 100⟩ ≤ dayCountAfter ⟨.running, 4, 9, "2026-01", false, false⟩) ∧
     ((increment_api_calls ⟨5, 100⟩ ⟨.running, 4, 9, "2026-01", false, false⟩ "2026-01").2 =
        some (.daily 5) ∧
      (increment_api_calls ⟨5, 100⟩ ⟨.running, 4, 9, "2026-01", false, false⟩
          "2026-01").1.api_quota_exceeded = true ∧
      can_run (increment_api_calls ⟨5, 100⟩ ⟨.running, 4, 9, "2026-01", false, false⟩
          "2026-01").1 = (false, "Sin créditos de Google Maps API"))) :=
  have hM := C1_quota_behavior ⟨5, 10⟩ ⟨.running, 3, 9, "2026-01", false, false⟩ "2026-01"
    (Or.inl (by decide)) (by decide) ⟨.stopped, 0, 0, "2026-01", false, false⟩
    (by decide) (by decide) c1RunOk ["a", "b"]
  have hD := C1_quota_behavior ⟨5, 100⟩ ⟨.running, 4, 9, "2026-01", false, false⟩ "2026-01"
    (Or.inr (by decide)) (by decide) ⟨.stopped, 0, 0, "2026-01", false, false⟩
    (by decide) (by decide) c1RunOk ["a", "b"]
  ⟨⟨Or.inl (by decide), hM⟩,
   ⟨Or.inr (by decide), hD.1, hD.2.1, hD.2.2.1⟩⟩

/-- C1 counterexample: the claim as frozen fails.  With two configured
databases and a run whose first database aborts with the governor's
monthly-limit exception, the orchestrator still processes the second
database (its successful result is recorded after the failure), and the
scheduled task ends with status STOPPED, not NO_API_CREDITS.  Moreover
the governor's message contains neither `"OVER_QUERY_LIMIT"` nor
`"quota"`, so even the task-level pattern match — were it ever reached —
would set ERROR rather than NO_API_CREDITS. -/
theorem C1_quota_terminates_run_cex :
    scheduled_sync_and_assign_model ⟨.stopped, 0, 0, "2026-01", false, false⟩
        c1RunDb ["bd1", "bd2"] =
      .completed .stopped
        [("bd1", Except.error (monthlyLimitMsg 10000)), ("bd2", Except.ok initialStats)] ∧
    (process_pending_lawsuits_model c1RunDb ["bd1", "bd2"]).get? 1 =
      some ("bd2", Except.ok initialStats) ∧
    BotStatus.stopped ≠ BotStatus.no_api_credits ∧
    task_error_status (monthlyLimitMsg 10000) = .error := by
  refine ⟨rfl, rfl, by decide, by decide⟩

/-!
## Claim C2 — running the engine twice

Association-list groundwork for `lookupA` / `updateA`.
-/

lemma lookupA_cons (p : Nat × Row) (A : Assigns) (k : Nat) :
    lookupA (p :: A) k = if p.1 == k then some p.2 else lookupA A k := by
  by_cases h : (p.1 == k) = true <;> simp [lookupA, List.find?_cons, h]

lemma lookupA_updateA_ne (A : Assigns) (k k' : Nat) (r : Row) (h : k' ≠ k) :
    lookupA (updateA A k r) k' = lookupA A k' := by
  induction A with
  | nil => rfl
  | cons p t ih =>
      simp only [updateA, List.map_cons]
      by_cases hp : (p.1 == k) = true
      · have hpk : p.1 = k := by simpa using hp
        rw [if_pos hp, lookupA_cons, lookupA_cons,
          if_neg (by simp [Ne.symm h]), if_neg (by simp [hpk, Ne.symm h])]
        exact ih
      · rw [if_neg hp, lookupA_cons, lookupA_cons]
        by_cases hq : (p.1 == k') = true
        · rw [if_pos hq, if_pos hq]
        · rw [if_neg hq, if_neg hq]
          exact ih

lemma lookupA_append_ne (A : Assigns) (k : Nat) (r : Row) (k' : Nat) (h : k' ≠ k) :
    lookupA (A ++ [(k, r)]) k' = lookupA A k' := by
  induction A with
  | nil =>
      simp only [List.nil_append]
      rw [lookupA_cons, if_neg (by simp [Ne.symm h])]
  | cons p t ih =>
      simp only [List.cons_append]
      rw [lookupA_cons, lookupA_cons]
      by_cases hq : (p.1 == k') = true
      · rw [if_pos hq, if_pos hq]
      · rw [if_neg hq, if_neg hq]
        exact ih

lemma lookupA_updateA_self (A : Assigns) (k : Nat) (r : Row)
    (h : (lookupA A k).isSome = true) :
    lookupA (updateA A k r) k = some r := by
  induction A with
  | nil => simp [lookupA] at h
  | cons p t ih =>
      simp only [updateA, List.map_cons]
      by_cases hp : (p.1 == k) = true
      · rw [if_pos hp, lookupA_cons, if_pos (by simp)]
      · rw [if_neg hp, lookupA_cons, if_neg hp]
        apply ih
        rw [lookupA_cons, if_neg hp] at h
        exact h

lemma lookupA_append_self (A : Assigns) (k : Nat) (r : Row)
    (h : lookupA A k = none) :
    lookupA (A ++ [(k, r)]) k = some r := by
  induction A with
  | nil =>
      simp only [List.nil_append]
      rw [lookupA_cons, if_pos (by simp)]
  | cons p t ih =>
      simp only [List.cons_append]
      rw [lookupA_cons] at h ⊢
      by_cases hp : (p.1 == k) = true
      · rw [if_pos hp] at h
        cases h
      · rw [if_neg hp] at h ⊢
        exact ih h

lemma lookupA_eq_none_iff (A : Assigns) (k : Nat) :
    lookupA A k = none ↔ k ∉ keysOf A := by
  induction A with
  | nil => simp [lookupA, keysOf]
  | cons p t ih =>
      rw [lookupA_cons]
      by_cases hp : (p.1 == k) = true
      · have hpk : p.1 = k := by simpa using hp
        simp [keysOf, hp, hpk]
      · have hpk : p.1 ≠ k := by simpa using hp
        rw [if_neg hp]
        simp only [keysOf, List.map_cons, List.mem_cons]
        constructor
        · intro hn hmem
          rcases hmem with he | hmem
          · exact hpk he.symm
          · exact (ih.mp hn) hmem
        · intro hn
          exact ih.mpr fun hm => hn (Or.inr hm)

lemma keysOf_updateA (A : Assigns) (k : Nat) (r : Row) :
    keysOf (updateA A k r) = keysOf A := by
  induction A with
  | nil => rfl
  | cons p t ih =>
      show ((if (p.1 == k) = true then (k, r) else p) :: updateA t k r).map Prod.fst
        = p.1 :: keysOf t
      by_cases hp : (p.1 == k) = true
      · have hpk : p.1 = k := by simpa using hp
        rw [if_pos hp]
        show k :: keysOf (updateA t k r) = p.1 :: keysOf t
        rw [ih, hpk]
      · rw [if_neg hp]
        show p.1 :: keysOf (updateA t k r) = p.1 :: keysOf t
        rw [ih]

lemma updateA_not_mem (A : Assigns) (k : Nat) (r : Row) (h : k ∉ keysOf A) :
    updateA A k r = A := by
  induction A with
  | nil => rfl
  | cons p t ih =>
      have h1 : (p.1 == k) = false := by
        simp only [keysOf, List.map_cons, List.mem_cons] at h
        simp only [beq_eq_false_iff_ne, ne_eq]
        intro he
        exact h (Or.inl he.symm)
      have h2 : k ∉ keysOf t := by
        simp only [keysOf, List.map_cons, List.mem_cons] at h
        exact fun hm => h (Or.inr hm)
      show (if (p.1 == k) = true then (k, r) else p) :: updateA t k r = p :: t
      rw [if_neg (by simp [h1]), ih h2]

lemma updateA_self (A : Assigns) (k : Nat) (r : Row)
    (hnd : (keysOf A).Nodup) (h : lookupA A k = some r) : updateA A k r = A := by
  induction A with
  | nil => rfl
  | cons p t ih =>
      rw [lookupA_cons] at h
      have hnd' := List.nodup_cons.mp hnd
      show (if (p.1 == k) = true then (k, r) else p) :: updateA t k r = p :: t
      by_cases hp : (p.1 == k) = true
      · have hpk : p.1 = k := by simpa using hp
        rw [if_pos hp] at h
        injection h with h
        rw [if_pos hp, updateA_not_mem t k r (hpk ▸ hnd'.1), ← hpk, ← h]
      · rw [if_neg hp] at h
        rw [if_neg hp, ih hnd'.2 h]

lemma step_snd (env : Env) (A : Assigns) (s : Stats) (c : Claim) :
    (step env (A, s) c).2 =
      bumpOutcome s (lookupA A c.client_id).isSome
        (evalClaim env (lookupA A c.client_id) c) := by
  rw [step_eval]
  cases evalClaim env (lookupA A c.client_id) c <;> rfl

lemma step_lookup_ne (env : Env) (A : Assigns) (s : Stats) (c : Claim) (k : Nat)
    (h : k ≠ c.client_id) :
    lookupA (step env (A, s) c).1 k = lookupA A k := by
  rw [step_eval]
  cases evalClaim env (lookupA A c.client_id) c with
  | write kind row =>
      by_cases hst : (lookupA A c.client_id).isSome = true
      · show lookupA (if (lookupA A c.client_id).isSome = true then _ else _) k = _
        rw [if_pos hst]
        exact lookupA_updateA_ne A c.client_id k row h
      · show lookupA (if (lookupA A c.client_id).isSome = true then _ else _) k = _
        rw [if_neg hst]
        exact lookupA_append_ne A c.client_id row k h
  | skipUnchanged => rfl
  | skipSentinelNoData => rfl
  | skipStillNoCourts => rfl
  | crash => rfl

lemma step_lookup_self (env : Env) (A : Assigns) (s : Stats) (c : Claim) :
    lookupA (step env (A, s) c).1 c.client_id =
      postRowFn (evalClaim env (lookupA A c.client_id) c) (lookupA A c.client_id) := by
  rw [step_eval]
  cases evalClaim env (lookupA A c.client_id) c with
  | write kind row =>
      by_cases hst : (lookupA A c.client_id).isSome = true
      · show lookupA (if (lookupA A c.client_id).isSome = true then _ else _) c.client_id = _
        rw [if_pos hst]
        exact lookupA_updateA_self A c.client_id row hst
      · show lookupA (if (lookupA A c.client_id).isSome = true then _ else _) c.client_id = _
        rw [if_neg hst]
        exact lookupA_append_self A c.client_id row (Option.not_isSome_iff_eq_none.mp hst)
  | skipUnchanged => rfl
  | skipSentinelNoData => rfl
  | skipStillNoCourts => rfl
  | crash => rfl

lemma step_keys_nodup (env : Env) (A : Assigns) (s : Stats) (c : Claim)
    (h : (keysOf A).Nodup) : (keysOf (step env (A, s) c).1).Nodup := by
  rw [step_eval]
  cases evalClaim env (lookupA A c.client_id) c with
  | write kind row =>
      by_cases hst : (lookupA A c.client_id).isSome = true
      · show (keysOf (if (lookupA A c.client_id).isSome = true then _ else _)).Nodup
        rw [if_pos hst, keysOf_updateA]
        exact h
      · show (keysOf (if (lookupA A c.client_id).isSome = true then _ else _)).Nodup
        rw [if_neg hst]
        have hni : c.client_id ∉ keysOf A :=
          (lookupA_eq_none_iff A c.client_id).mp (Option.not_isSome_iff_eq_none.mp hst)
        have hk : keysOf (A ++ [(c.client_id, row)]) = keysOf A ++ [c.client_id] := by
          show (A ++ [(c.client_id, row)]).map Prod.fst = _
          rw [List.map_append]
          rfl
        rw [hk, List.nodup_append]
        exact ⟨h, List.nodup_singleton _, fun x hx hmem => by
          rw [List.mem_singleton] at hmem
          exact hni (hmem ▸ hx)⟩
  | skipUnchanged => exact h
  | skipSentinelNoData => exact h
  | skipStillNoCourts => exact h
  | crash => exact h

lemma run_lookup_ne (env : Env) (cs : List Claim) (st : Assigns × Stats) (k : Nat)
    (h : ∀ c ∈ cs, k ≠ c.client_id) :
    lookupA (cs.foldl (step env) st).1 k = lookupA st.1 k := by
  induction cs generalizing st with
  | nil => rfl
  | cons c t ih =>
      rw [List.foldl_cons, ih (step env st c) (fun d hd => h d (List.mem_cons_of_mem _ hd))]
      obtain ⟨A, s⟩ := st
      exact step_lookup_ne env A s c k (h c (List.mem_cons_self _ _))

lemma run_keys_nodup (env : Env) (cs : List Claim) (st : Assigns × Stats)
    (h : (keysOf st.1).Nodup) : (keysOf (cs.foldl (step env) st).1).Nodup := by
  induction cs generalizing st with
  | nil => exact h
  | cons c t ih =>
      rw [List.foldl_cons]
      refine ih (step env st c) ?_
      obtain ⟨A, s⟩ := st
      exact step_keys_nodup env A s c h

lemma run_lookup_eq (env : Env) (cs : List Claim) (st : Assigns × Stats) (c : Claim)
    (hmem : c ∈ cs) (hnd : (cs.map Claim.client_id).Nodup) :
    lookupA (cs.foldl (step env) st).1 c.client_id =
      postRowFn (evalClaim env (lookupA st.1 c.client_id) c) (lookupA st.1 c.client_id) := by
  induction cs generalizing st with
  | nil => cases hmem
  | cons d t ih =>
      rw [List.foldl_cons]
      have hnd' := List.nodup_cons.mp hnd
      rcases List.mem_cons.mp hmem with rfl | hmem
      · rw [run_lookup_ne env t (step env st c) c.client_id ?_]
        · obtain ⟨A, s⟩ := st
          exact step_lookup_self env A s c
        · intro d hd he
          exact hnd'.1 (he ▸ List.mem_map_of_mem Claim.client_id hd)
      · rw [ih (step env st d) hmem hnd'.2]
        obtain ⟨A, s⟩ := st
        rw [step_lookup_ne env A s d c.client_id ?_]
        intro he
        exact hnd'.1 (he ▸ List.mem_map_of_mem Claim.client_id hmem)

lemma run_stats_eq (env : Env) (cs : List Claim) (st : Assigns × Stats)
    (g : Claim → Option Row)
    (hg : ∀ c ∈ cs, lookupA st.1 c.client_id = g c)
    (hnd : (cs.map Claim.client_id).Nodup) :
    (cs.foldl (step env) st).2 =
      cs.foldl (fun s c => bumpOutcome s (g c).isSome (evalClaim env (g c) c)) st.2 := by
  induction cs generalizing st with
  | nil => rfl
  | cons d t ih =>
      have hnd' := List.nodup_cons.mp hnd
      rw [List.foldl_cons, List.foldl_cons]
      rw [ih (step env st d) ?_ hnd'.2]
      · congr 1
        obtain ⟨A, s⟩ := st
        rw [step_snd, hg d (List.mem_cons_self _ _)]
      · intro c hc
        obtain ⟨A, s⟩ := st
        rw [step_lookup_ne env A s d c.client_id ?_]
        · exact hg c (List.mem_cons_of_mem _ hc)
        · intro he
          exact hnd'.1 (he ▸ List.mem_map_of_mem Claim.client_id hc)

lemma run_fst_const (env : Env) (cs : List Claim) (A : Assigns) (s : Stats)
    (h : ∀ c ∈ cs, ∀ s' : Stats, (step env (A, s') c).1 = A) :
    (cs.foldl (step env) (A, s)).1 = A := by
  induction cs generalizing s with
  | nil => rfl
  | cons d t ih =>
      rw [List.foldl_cons]
      have hd := h d (List.mem_cons_self _ _) s
      have h2 : step env (A, s) d = (A, (step env (A, s) d).2) := Prod.ext hd rfl
      rw [h2]
      exact ih _ fun c hc s' => h c (List.mem_cons_of_mem _ hc) s'

lemma bumpWrite_skipped (s : Stats) (b : Bool) (k : WriteKind) :
    (bumpWrite s b k).skipped = s.skipped := by
  cases b <;> cases k <;> rfl

lemma bumpWrite_success (s : Stats) (b : Bool) (k : WriteKind) :
    (bumpWrite s b k).success = s.success + (if k = .success then 1 else 0) := by
  cases b <;> cases k <;> rfl

lemma bumpWrite_no_court (s : Stats) (b : Bool) (k : WriteKind) :
    (bumpWrite s b k).no_court_in_city
      = s.no_court_in_city + (if k = .noCourt then 1 else 0) := by
  cases b <;> cases k <;> rfl

lemma fold_bump_skipped (env : Env) (g : Claim → Option Row) (cs : List Claim) (s0 : Stats) :
    (cs.foldl (fun s c => bumpOutcome s (g c).isSome (evalClaim env (g c) c)) s0).skipped =
      s0.skipped + cs.countP (fun c => skipLike (evalClaim env (g c) c)) := by
  induction cs generalizing s0 with
  | nil => simp
  | cons d t ih =>
      rw [List.foldl_cons, ih, List.countP_cons]
      cases hev : evalClaim env (g d) d <;>
        simp [bumpOutcome, skipLike, bumpWrite_skipped] <;> omega

lemma fold_bump_success (env : Env) (g : Claim → Option Row) (cs : List Claim) (s0 : Stats) :
    (cs.foldl (fun s c => bumpOutcome s (g c).isSome (evalClaim env (g c) c)) s0).success =
      s0.success + cs.countP (fun c => isSuccessW (evalClaim env (g c) c)) := by
  induction cs generalizing s0 with
  | nil => simp
  | cons d t ih =>
      rw [List.foldl_cons, ih, List.countP_cons]
      cases hev : evalClaim env (g d) d with
      | write k row =>
          cases k <;> simp [bumpOutcome, isSuccessW, bumpWrite_success] <;> omega
      | skipUnchanged => simp [bumpOutcome, isSuccessW]
      | skipSentinelNoData => simp [bumpOutcome, isSuccessW]
      | skipStillNoCourts => simp [bumpOutcome, isSuccessW]
      | crash => simp [bumpOutcome, isSuccessW]

lemma fold_bump_no_court (env : Env) (g : Claim → Option Row) (cs : List Claim) (s0 : Stats) :
    (cs.foldl (fun s c => bumpOutcome s (g c).isSome (evalClaim env (g c) c)) s0).no_court_in_city =
      s0.no_court_in_city + cs.countP (fun c => isNoCourtW (evalClaim env (g c) c)) := by
  induction cs generalizing s0 with
  | nil => simp
  | cons d t ih =>
      rw [List.foldl_cons, ih, List.countP_cons]
      cases hev : evalClaim env (g d) d with
      | write k row =>
          cases k <;> simp [bumpOutcome, isNoCourtW, bumpWrite_no_court] <;> omega
      | skipUnchanged => simp [bumpOutcome, isNoCourtW]
      | skipSentinelNoData => simp [bumpOutcome, isNoCourtW]
      | skipStillNoCourts => simp [bumpOutcome, isNoCourtW]
      | crash => simp [bumpOutcome, isNoCourtW]

lemma countP_or3 {α : Type} (l : List α) (p q r : α → Bool)
    (hpq : ∀ a ∈ l, p a = true → q a = false)
    (hpr : ∀ a ∈ l, p a = true → r a = false)
    (hqr : ∀ a ∈ l, q a = true → r a = false) :
    l.countP (fun a => p a || q a || r a) = l.countP p + l.countP q + l.countP r := by
  induction l with
  | nil => simp
  | cons x t ih =>
      rw [List.countP_cons, List.countP_cons, List.countP_cons, List.countP_cons,
        ih (fun a ha => hpq a (List.mem_cons_of_mem _ ha))
          (fun a ha => hpr a (List.mem_cons_of_mem _ ha))
          (fun a ha => hqr a (List.mem_cons_of_mem _ ha))]
      have hx := List.mem_cons_self x t
      by_cases hp : p x = true
      · have hq := hpq x hx hp
        have hr := hpr x hx hp
        simp only [hp, hq, hr]
        simp
        omega
      · have hp' : p x = false := by simpa using hp
        by_cases hq2 : q x = true
        · have hr := hqr x hx hq2
          simp only [hp', hq2, hr]
          simp
          omega
        · have hq' : q x = false := by simpa using hq2
          cases hr : r x <;> simp only [hp', hq', hr] <;> simp <;> omega

lemma selectCourt_mem (top : List CandDist) (real : List RouteEntry) (wd : CandDist × ℚ)
    (h : selectCourt top real = some wd) : wd.1 ∈ top := by
  cases real with
  | nil =>
      cases top with
      | nil => exact absurd h (by simp [selectCourt])
      | cons t ts =>
          have h2 : some (t, t.straight_distance) = some wd := h
          injection h2 with h2
          rw [← h2]
          exact List.mem_cons_self _ _
  | cons r rest =>
      have h2 : (match List.find? (fun c0 => c0.court_id == r.court_id) top with
                 | some c0 => some (c0, r.distance_km)
                 | none => (none : Option (CandDist × ℚ))) = some wd := h
      cases hf : List.find? (fun c0 => c0.court_id == r.court_id) top with
      | none =>
          rw [hf] at h2
          cases h2
      | some c0 =>
          rw [hf] at h2
          have h3 : some (c0, r.distance_km) = some wd := h2
          injection h3 with h3
          rw [← h3]
          exact List.mem_of_find?_eq_some hf

lemma candidateList_name_valid (env : Env) (c : Claim)
    (hcourts : ∀ dc ∈ env.courts, dc.name ≠ "" ∧ dc.name ∉ sentinelNames)
    (w : CandDist) (hw : w ∈ candidateList env c) :
    w.court_name ≠ "" ∧ w.court_name ∉ sentinelNames := by
  unfold candidateList courtsWithDistance at hw
  obtain ⟨dc, hdc, hmap⟩ := List.mem_map.mp hw
  have hmem : dc.1 ∈ env.courts := by
    unfold matchingCourts at hdc
    obtain ⟨court, hcmem, hsome⟩ := List.mem_filterMap.mp hdc
    cases hco : court.coord with
    | none =>
        rw [hco] at hsome
        cases hsome
    | some cc =>
        rw [hco] at hsome
        have hsome2 : (if (court.activo && !court.deleted && !cc.deleted
            && sqlEq court.type_cuantity c.type_quantity
            && cityVariantHit env (c.city.getD "") court.city) = true then
              some (court, cc) else (none : Option (Court × CourtCoord))) = some dc := hsome
        by_cases hcond : (court.activo && !court.deleted && !cc.deleted
            && sqlEq court.type_cuantity c.type_quantity
            && cityVariantHit env (c.city.getD "") court.city) = true
        · rw [if_pos hcond] at hsome2
          injection hsome2 with hsome2
          rw [← hsome2]
          exact hcmem
        · rw [if_neg hcond] at hsome2
          cases hsome2
  have hname : w.court_name = dc.1.name := by rw [← hmap]
  rw [hname]
  exact hcourts dc.1 hmem

lemma topCourts_name_valid (env : Env) (c : Claim)
    (hcourts : ∀ dc ∈ env.courts, dc.name ≠ "" ∧ dc.name ∉ sentinelNames)
    (w : CandDist) (hw : w ∈ topCourts env c) :
    w.court_name ≠ "" ∧ w.court_name ∉ sentinelNames := by
  apply candidateList_name_valid env c hcourts
  have h2 := List.mem_of_mem_take hw
  rw [mem_sortLe] at h2
  exact h2

lemma isRealCourt_of_valid (nm : String) (h1 : nm ≠ "") (h2 : nm ∉ sentinelNames) :
    isRealCourt (some nm) = true := by
  simp [isRealCourt, h1, h2]

lemma evalClaim_write_common (env : Env) (st : Option Row) (c : Claim)
    (k : WriteKind) (row : Row) (h : evalClaim env st c = .write k row) :
    commonEval env c (clientHash c) = .write k row := by
  cases st with
  | none => exact h
  | some r =>
      simp only [evalClaim] at h
      split at h
      · cases h
      · split at h
        · split at h
          · cases h
          · split at h
            · cases h
            · exact h
        · exact h

/-- Re-evaluating a claim against the very row its evaluation just wrote:
a real assignment skips at line 158, the no-court sentinel skips at line
205 (the court count is still zero), and the other three sentinels are
rewritten with the identical row. -/
lemma rewrite_common (env : Env) (c : Claim)
    (hcourts : ∀ dc ∈ env.courts, dc.name ≠ "" ∧ dc.name ∉ sentinelNames)
    (k : WriteKind) (row : Row)
    (hc : commonEval env c (clientHash c) = .write k row) :
    (k = .success → evalClaim env (some row) c = .skipUnchanged) ∧
    (k = .noCourt → evalClaim env (some row) c = .skipStillNoCourts) ∧
    ((k = .noAddress ∨ k = .geoError ∨ k = .wrongCity) →
      evalClaim env (some row) c = .write k row) := by
  by_cases h1 : (!truthyS c.address || !truthyS c.city) = true
  · have he : commonEval env c (clientHash c)
        = .write .noAddress (noAddressRow c (clientHash c)) := by
      simp only [commonEval, h1, if_true]
    rw [he] at hc
    injection hc with hk hrow
    refine ⟨fun hs => WriteKind.noConfusion (hk.trans hs),
      fun hs => WriteKind.noConfusion (hk.trans hs), fun _ => ?_⟩
    rw [← hk, ← hrow]
    rw [evalClaim_fallthrough env (noAddressRow c (clientHash c)) c
      (fun _ => ⟨rfl, fun h => absurd (Option.some.inj h) (by decide)⟩)]
    exact he
  · rw [Bool.not_eq_true] at h1
    by_cases h2 : (!truthyQ (clientGeo env c).lat || !truthyQ (clientGeo env c).lng) = true
    · have he : commonEval env c (clientHash c)
          = .write .geoError (geoErrorRow c (clientHash c)) := by
        simp only [commonEval, h1, Bool.false_eq_true, if_false, h2, if_true]
      rw [he] at hc
      injection hc with hk hrow
      refine ⟨fun hs => WriteKind.noConfusion (hk.trans hs),
        fun hs => WriteKind.noConfusion (hk.trans hs), fun _ => ?_⟩
      rw [← hk, ← hrow]
      rw [evalClaim_fallthrough env (geoErrorRow c (clientHash c)) c
        (fun _ => ⟨rfl, fun h => absurd (Option.some.inj h) (by decide)⟩)]
      exact he
    · rw [Bool.not_eq_true] at h2
      by_cases h3 : (truthyS (clientGeo env c).found_city
          && !env.citiesMatch ((clientGeo env c).found_city.getD "") (c.city.getD "")) = true
      · have he : commonEval env c (clientHash c)
            = .write .wrongCity
                (wrongCityRow c (clientHash c) ((clientGeo env c).found_city.getD "")) := by
          simp only [commonEval, h1, h2, Bool.false_eq_true, if_false, h3, if_true]
        rw [he] at hc
        injection hc with hk hrow
        refine ⟨fun hs => WriteKind.noConfusion (hk.trans hs),
          fun hs => WriteKind.noConfusion (hk.trans hs), fun _ => ?_⟩
        rw [← hk, ← hrow]
        rw [evalClaim_fallthrough env
          (wrongCityRow c (clientHash c) ((clientGeo env c).found_city.getD "")) c
          (fun _ => ⟨rfl, fun h => absurd (Option.some.inj h) (by decide)⟩)]
        exact he
      · rw [Bool.not_eq_true] at h3
        by_cases h4 : (matchingCourts env (c.city.getD "") c.type_quantity).isEmpty = true
        · have he : commonEval env c (clientHash c)
              = .write .noCourt (noCourtRow c (clientHash c)) := by
            simp only [commonEval, h1, h2, h3, Bool.false_eq_true, if_false, h4, if_true]
          rw [he] at hc
          injection hc with hk hrow
          refine ⟨fun hs => WriteKind.noConfusion (hk.trans hs), fun _ => ?_, fun hs => ?_⟩
          · rw [← hrow]
            have hnil : matchingCourts env (c.city.getD "") c.type_quantity = [] := by
              cases hm : matchingCourts env (c.city.getD "") c.type_quantity with
              | nil => rfl
              | cons a t =>
                  rw [hm] at h4
                  simp at h4
            rw [evalClaim_sentinel_branch env (noCourtRow c (clientHash c)) c rfl (by rfl) rfl]
            rw [if_neg (by simp [h1]), if_pos (by rw [hnil]; rfl)]
          · rcases hs with hs | hs | hs <;> exact WriteKind.noConfusion (hk.trans hs)
        · rw [Bool.not_eq_true] at h4
          cases hsel : selectCourt (topCourts env c) (realDistances env c) with
          | none =>
              have he : commonEval env c (clientHash c) = .crash := by
                simp only [commonEval, h1, h2, h3, h4, Bool.false_eq_true, if_false, hsel]
              rw [he] at hc
              cases hc
          | some wd =>
              have he : commonEval env c (clientHash c)
                  = .write .success (successRow c (clientHash c) wd.1 wd.2) := by
                simp only [commonEval, h1, h2, h3, h4, Bool.false_eq_true, if_false, hsel]
              rw [he] at hc
              injection hc with hk hrow
              refine ⟨fun _ => ?_, fun hs => WriteKind.noConfusion (hk.trans hs), fun hs => ?_⟩
              · rw [← hrow]
                have hv := topCourts_name_valid env c hcourts wd.1
                  (selectCourt_mem _ _ _ hsel)
                have hreal : isRealCourt (successRow c (clientHash c) wd.1 wd.2).court_name
                    = true := by
                  show isRealCourt (some wd.1.court_name) = true
                  exact isRealCourt_of_valid _ hv.1 hv.2
                exact evalClaim_skipUnchanged env _ c rfl hreal
              · rcases hs with hs | hs | hs <;> exact WriteKind.noConfusion (hk.trans hs)

/-- The second evaluation of a claim against the post-run-1 stored row:
any write rewrites exactly the stored row, and the claim is skipped
precisely when run 1 skipped it, assigned a real court, or wrote the
no-court sentinel. -/
lemma second_step_eval (env : Env) (c : Claim) (st : Option Row)
    (hcourts : ∀ dc ∈ env.courts, dc.name ≠ "" ∧ dc.name ∉ sentinelNames) :
    (∀ k2 row2,
        evalClaim env (postRowFn (evalClaim env st c) st) c = .write k2 row2 →
        postRowFn (evalClaim env st c) st = some row2) ∧
    skipLike (evalClaim env (postRowFn (evalClaim env st c) st) c) =
      (skipLike (evalClaim env st c) || isSuccessW (evalClaim env st c)
        || isNoCourtW (evalClaim env st c)) := by
  cases hev : evalClaim env st c with
  | skipUnchanged =>
      refine ⟨fun k2 row2 h => ?_, ?_⟩
      · rw [show postRowFn Outcome.skipUnchanged st = st from rfl, hev] at h
        cases h
      · rw [show postRowFn Outcome.skipUnchanged st = st from rfl, hev]
        rfl
  | skipSentinelNoData =>
      refine ⟨fun k2 row2 h => ?_, ?_⟩
      · rw [show postRowFn Outcome.skipSentinelNoData st = st from rfl, hev] at h
        cases h
      · rw [show postRowFn Outcome.skipSentinelNoData st = st from rfl, hev]
        rfl
  | skipStillNoCourts =>
      refine ⟨fun k2 row2 h => ?_, ?_⟩
      · rw [show postRowFn Outcome.skipStillNoCourts st = st from rfl, hev] at h
        cases h
      · rw [show postRowFn Outcome.skipStillNoCourts st = st from rfl, hev]
        rfl
  | crash =>
      refine ⟨fun k2 row2 h => ?_, ?_⟩
      · rw [show postRowFn Outcome.crash st = st from rfl, hev] at h
        cases h
      · rw [show postRowFn Outcome.crash st = st from rfl, hev]
        rfl
  | write k row =>
      have hcommon := evalClaim_write_common env st c k row hev
      have hrw := rewrite_common env c hcourts k row hcommon
      cases k with
      | success =>
          have hO2 := hrw.1 rfl
          refine ⟨fun k2 row2 h => ?_, ?_⟩
          · rw [show postRowFn (Outcome.write .success row) st = some row from rfl, hO2] at h
            cases h
          · rw [show postRowFn (Outcome.write .success row) st = some row from rfl, hO2]
            rfl
      | noCourt =>
          have hO2 := hrw.2.1 rfl
          refine ⟨fun k2 row2 h => ?_, ?_⟩
          · rw [show postRowFn (Outcome.write .noCourt row) st = some row from rfl, hO2] at h
            cases h
          · rw [show postRowFn (Outcome.write .noCourt row) st = some row from rfl, hO2]
            rfl
      | noAddress =>
          have hO2 := hrw.2.2 (Or.inl rfl)
          refine ⟨fun k2 row2 h => ?_, ?_⟩
          · rw [show postRowFn (Outcome.write .noAddress row) st = some row from rfl, hO2] at h
            injection h with h1 h2
            rw [h2]
            rfl
          · rw [show postRowFn (Outcome.write .noAddress row) st = some row from rfl, hO2]
            rfl
      | geoError =>
          have hO2 := hrw.2.2 (Or.inr (Or.inl rfl))
          refine ⟨fun k2 row2 h => ?_, ?_⟩
          · rw [show postRowFn (Outcome.write .geoError row) st = some row from rfl, hO2] at h
            injection h with h1 h2
            rw [h2]
            rfl
          · rw [show postRowFn (Outcome.write .geoError row) st = some row from rfl, hO2]
            rfl
      | wrongCity =>
          have hO2 := hrw.2.2 (Or.inr (Or.inr rfl))
          refine ⟨fun k2 row2 h => ?_, ?_⟩
          · rw [show postRowFn (Outcome.write .wrongCity row) st = some row from rfl, hO2] at h
            injection h with h1 h2
            rw [h2]
            rfl
          · rw [show postRowFn (Outcome.write .wrongCity row) st = some row from rfl, hO2]
            rfl

lemma outcome_classes (o : Outcome) :
    (skipLike o = true → isSuccessW o = false) ∧
    (skipLike o = true → isNoCourtW o = false) ∧
    (isSuccessW o = true → isNoCourtW o = false) := by
  cases o with
  | skipUnchanged => exact ⟨fun _ => rfl, fun _ => rfl, fun h => (nomatch h)⟩
  | skipSentinelNoData => exact ⟨fun _ => rfl, fun _ => rfl, fun h => (nomatch h)⟩
  | skipStillNoCourts => exact ⟨fun _ => rfl, fun _ => rfl, fun h => (nomatch h)⟩
  | crash => exact ⟨fun h => (nomatch h), fun h => (nomatch h), fun h => (nomatch h)⟩
  | write k row =>
      refine ⟨fun h => (nomatch h), fun h => (nomatch h), fun h => ?_⟩
      cases k with
      | success => rfl
      | noAddress => exact (nomatch h)
      | geoError => exact (nomatch h)
      | wrongCity => exact (nomatch h)
      | noCourt => exact (nomatch h)

/-- C2 (amended): with one pending claim per client (and one assignment
row per client), running the engine a second time right after a completed
first run, with claims, courts, configuration and external responses
unchanged — and court names that are not sentinel strings — leaves the
Assignment rows identical; the second run's skipped count equals the
first run's skipped count plus the number of claims the first run
resolved to a real assignment or to the `"No se encuentra juzgado en
ciudad"` sentinel.  Claims whose first-run outcome was `"Sin dirección"`,
`"Error en geocodificación"` or `"Dirección incorrecta o en otra ciudad"`
are re-processed (re-written with the identical row), not skipped — which
refutes the frozen claim's "skipped count equals the number of pending
claims", see `C2_idempotence_cex`. -/
theorem C2_second_run_idempotent (env : Env) (A0 : Assigns) (cs : List Claim)
    (hA : (keysOf A0).Nodup) (hc : (cs.map Claim.client_id).Nodup)
    (hcourts : ∀ dc ∈ env.courts, dc.name ≠ "" ∧ dc.name ∉ sentinelNames) :
    (runEngine env (runEngine env A0 cs).1 cs).1 = (runEngine env A0 cs).1 ∧
    (runEngine env (runEngine env A0 cs).1 cs).2.skipped =
      (runEngine env A0 cs).2.skipped + (runEngine env A0 cs).2.success +
        (runEngine env A0 cs).2.no_court_in_city := by
  have hA1nodup : (keysOf (runEngine env A0 cs).1).Nodup :=
    run_keys_nodup env cs (A0, initialStats) hA
  have hlook : ∀ c ∈ cs, lookupA (runEngine env A0 cs).1 c.client_id =
      postRowFn (evalClaim env (lookupA A0 c.client_id) c) (lookupA A0 c.client_id) :=
    fun c hmem => run_lookup_eq env cs (A0, initialStats) c hmem hc
  have hstable : ∀ c ∈ cs, ∀ s' : Stats,
      (step env ((runEngine env A0 cs).1, s') c).1 = (runEngine env A0 cs).1 := by
    intro c hmem s'
    have hsse := second_step_eval env c (lookupA A0 c.client_id) hcourts
    rw [step_eval]
    cases hev2 : evalClaim env (lookupA (runEngine env A0 cs).1 c.client_id) c with
    | write k2 row2 =>
        have hst2 : lookupA (runEngine env A0 cs).1 c.client_id = some row2 := by
          rw [hlook c hmem]
          apply hsse.1 k2 row2
          rw [← hlook c hmem]
          exact hev2
        show (if (lookupA (runEngine env A0 cs).1 c.client_id).isSome = true
            then updateA (runEngine env A0 cs).1 c.client_id row2
            else (runEngine env A0 cs).1 ++ [(c.client_id, row2)]) = (runEngine env A0 cs).1
        rw [if_pos (by rw [hst2]; rfl)]
        exact updateA_self _ _ _ hA1nodup hst2
    | skipUnchanged => rfl
    | skipSentinelNoData => rfl
    | skipStillNoCourts => rfl
    | crash => rfl
  constructor
  · exact run_fst_const env cs (runEngine env A0 cs).1 initialStats hstable
  · have hs2 := run_stats_eq env cs ((runEngine env A0 cs).1, initialStats)
      (fun c => lookupA (runEngine env A0 cs).1 c.client_id) (fun c _ => rfl) hc
    have hs1 := run_stats_eq env cs (A0, initialStats)
      (fun c => lookupA A0 c.client_id) (fun c _ => rfl) hc
    show (cs.foldl (step env) ((runEngine env A0 cs).1, initialStats)).2.skipped =
      (cs.foldl (step env) (A0, initialStats)).2.skipped +
        (cs.foldl (step env) (A0, initialStats)).2.success +
        (cs.foldl (step env) (A0, initialStats)).2.no_court_in_city
    rw [hs2, hs1, fold_bump_skipped, fold_bump_skipped, fold_bump_success, fold_bump_no_court]
    have hcong : cs.countP
        (fun c => skipLike (evalClaim env (lookupA (runEngine env A0 cs).1 c.client_id) c)) =
        cs.countP (fun c =>
          skipLike (evalClaim env (lookupA A0 c.client_id) c)
          || isSuccessW (evalClaim env (lookupA A0 c.client_id) c)
          || isNoCourtW (evalClaim env (lookupA A0 c.client_id) c)) := by
      apply List.countP_congr
      intro c hmem
      have hsse := second_step_eval env c (lookupA A0 c.client_id) hcourts
      rw [hlook c hmem, hsse.2]
    rw [hcong, countP_or3]
    · have hz : ((A0, initialStats) : Assigns × Stats).2 = initialStats := rfl
      have hz2 : (((runEngine env A0 cs).1, initialStats) : Assigns × Stats).2
          = initialStats := rfl
      simp only [hz, hz2, initialStats]
      omega
    · intro a _ h
      exact (outcome_classes _).1 h
    · intro a _ h
      exact (outcome_classes _).2.1 h
    · intro a _ h
      exact (outcome_classes _).2.2 h

/-- C2 counterexample: the claim as frozen fails.  One pending claim with
no address: the first run writes the `"Sin dirección"` sentinel row; the
second run, with nothing changed, does not skip it — it re-evaluates and
re-writes the row (one UPDATE) — so the second run's skipped count is 0,
not the claim count 1. -/
theorem C2_idempotence_cex :
    (runEngine envTrivial (runEngine envTrivial [] [claimC2]).1 [claimC2]).2.skipped = 0 ∧
    [claimC2].length = 1 ∧
    (0 : Nat) ≠ 1 ∧
    (runEngine envTrivial (runEngine envTrivial [] [claimC2]).1 [claimC2]).2.updated = 1 := by
  refine ⟨by decide, by decide, by decide, by decide⟩

theorem C2_second_run_idempotent_witness :
    ((keysOf ([] : Assigns)).Nodup) ∧
    (([claim5, claimC2].map Claim.client_id).Nodup) ∧
    (∀ dc ∈ env6.courts, dc.name ≠ "" ∧ dc.name ∉ sentinelNames) ∧
    ((runEngine env6 (runEngine env6 [] [claim5, claimC2]).1 [claim5, claimC2]).1 =
        (runEngine env6 [] [claim5, claimC2]).1 ∧
      (runEngine env6 (runEngine env6 [] [claim5, claimC2]).1 [claim5, claimC2]).2.skipped =
        (runEngine env6 [] [claim5, claimC2]).2.skipped +
          (runEngine env6 [] [claim5, claimC2]).2.success +
          (runEngine env6 [] [claim5, claimC2]).2.no_court_in_city) ∧
    (runEngine env6 (runEngine env6 [] [claim5, claimC2]).1 [claim5, claimC2]).2.skipped = 1 :=
  ⟨by decide, by decide, by decide,
    C2_second_run_idempotent env6 [] [claim5, claimC2] (by decide) (by decide) (by decide),
    by decide⟩
